import Mathlib

/-!
# canokey-core: WebUSB transport, OATH engine

A shallow embedding of `interfaces/USB/class/webusb/webusb.c` (the WebUSB
transport state machine that shares `global_buffer` with the other
transports), of `fm_crc8` in `interfaces/NFC/fm.c`, and of the OATH and
touch-output behaviour exercised by `test/test_oath.c`.

Machine integers are natural numbers with explicit reductions: `uint8_t`
values are taken modulo `2^8`, `uint16_t` modulo `2^16`, `uint32_t` modulo
`2^32`.  The `int8_t state` variable only ever holds one of the six
enumerators and is an `Int`.
-/

namespace Webusb

/-! ## Enumerators and macros -/

/-- Enumerator `STATE_IDLE = -1` (webusb.c:11). -/
def STATE_IDLE : Int := -1
/-- Enumerator `STATE_PROCESS = 1` (webusb.c:12). -/
def STATE_PROCESS : Int := 1
/-- Enumerator `STATE_SENDING_RESP = 0` (webusb.c:13). -/
def STATE_SENDING_RESP : Int := 0
/-- Enumerator `STATE_SENT_RESP = 2` (webusb.c:14). -/
def STATE_SENT_RESP : Int := 2
/-- Enumerator `STATE_RECVING = 3` (webusb.c:15). -/
def STATE_RECVING : Int := 3
/-- Enumerator `STATE_HOLD_BUF = 4` (webusb.c:16). -/
def STATE_HOLD_BUF : Int := 4

/-- Modelled from the spec: `apdu.h` is not among the sources; the status word
"wrong length" has the canonical value `0x6700` (spec section 6). -/
def SW_WRONG_LENGTH : Nat := 0x6700

/-- Modelled from the spec: `common.h` is not among the sources; `HI(x)` is the
high byte of a 16-bit status word, `(uint8_t)(x >> 8)`. -/
def HI (x : Nat) : Nat := (x >>> 8) % 256

/-- Modelled from the spec: `common.h` is not among the sources; `LO(x)` is the
low byte of a 16-bit status word, `(uint8_t)(x & 0xFF)`. -/
def LO (x : Nat) : Nat := (x &&& 0xFF) % 256

/-- Modelled from the spec: `webusb.h` is not among the sources; the request
codes are three distinct `bRequest` values, here those of the upstream header. -/
def WEBUSB_REQ_CMD : Nat := 0
/-- Modelled from the spec: see `WEBUSB_REQ_CMD`. -/
def WEBUSB_REQ_RESP : Nat := 1
/-- Modelled from the spec: see `WEBUSB_REQ_CMD`. -/
def WEBUSB_REQ_STAT : Nat := 2

/-- The `MIN` macro on unsigned operands. -/
def MIN (a b : Nat) : Nat := if a < b then a else b

/-- Subtraction of two `uint32_t` values, as in
`device_get_tick() - last_keepalive` (webusb.c:40). -/
def sub32 (a b : Nat) : Nat := (a % 2 ^ 32 + 2 ^ 32 - b % 2 ^ 32) % 2 ^ 32

/-! ## The buffer broker (apdu.c, absent from the sources) -/

/-- Modelled from the spec: `apdu.h` is not among the sources; the owners of
the shared command buffer (`BUFFER_OWNER_*`), the transports of section 1 and
"nobody". -/
inductive BufferOwner where
  | BUFFER_OWNER_NONE
  | BUFFER_OWNER_CCID
  | BUFFER_OWNER_WEBUSB
  | BUFFER_OWNER_USBD
  deriving DecidableEq, Repr

open BufferOwner

/-- Modelled from the spec: `acquire_apdu_buffer` lives in `apdu.c`, which is
not among the sources.  Section 4.1: acquisition is exclusive; a request from a
different owner while the buffer is held fails with busy (non-zero); a request
by the current owner, or while nobody holds the buffer, is granted (zero) and
makes the requester the owner. -/
def acquire_apdu_buffer (owner cur : BufferOwner) : Int × BufferOwner :=
  if cur = BUFFER_OWNER_NONE ∨ cur = owner then (0, owner) else (-1, cur)

/-- Modelled from the spec: `release_apdu_buffer` lives in `apdu.c`, which is
not among the sources.  Section 4.1: `release(owner)` gives the buffer up when
`owner` holds it and has no effect on another owner's lease. -/
def release_apdu_buffer (owner cur : BufferOwner) : BufferOwner :=
  if cur = owner then BUFFER_OWNER_NONE else cur

/-! ## State -/

/-- Modelled from the spec: `apdu.h` is not among the sources; the command of
section 3, the fields of `CAPDU` other than `data`, which aliases
`global_buffer` (webusb.c:34). -/
structure CAPDU where
  cla : Nat
  ins : Nat
  p1 : Nat
  p2 : Nat
  lc : Nat
  le : Nat
  deriving DecidableEq, Repr

/-- Modelled from the spec: `apdu.h` is not among the sources; the response of
section 3, the fields of `RAPDU` other than `data`, which aliases
`global_buffer` (webusb.c:35): `LL` is `len`, `SW` is `sw`. -/
structure RAPDU where
  len : Nat
  sw : Nat
  deriving DecidableEq, Repr

/-- Which memory a control transfer is armed on. -/
inductive XferTarget where
  | global_buffer
  | state_byte
  deriving DecidableEq, Repr

/-- Calls that leave webusb.c, recorded in program order. -/
inductive Call where
  | release_apdu_buffer (owner : BufferOwner)
  | acquire_apdu_buffer (owner : BufferOwner)
  | build_capdu
  | process_apdu
  | tud_control_xfer (target : XferTarget) (len : Nat)
  deriving DecidableEq, Repr

/-- The functions and constants webusb.c takes from the rest of the firmware.
`build_capdu cmd buf len` returns the result code, the parsed header and the
buffer (its `data` aliases the buffer it parses); `process_apdu` runs the
selected application on its state `App` and returns the new application state,
`LL`/`SW` and the buffer holding the response bytes. -/
structure Platform (App : Type) where
  APDU_BUFFER_SIZE : Nat
  build_capdu : CAPDU → List Nat → Nat → Int × CAPDU × List Nat
  process_apdu : App → CAPDU → RAPDU → List Nat → App × RAPDU × List Nat

/-- The static variables of webusb.c (lines 19-23), the shared
`global_buffer`, the broker's owner variable, the application state behind
`process_apdu`, and the record of outgoing calls. -/
structure State (App : Type) where
  state : Int
  apdu_buffer_size : Nat
  apdu_cmd : CAPDU
  apdu_resp : RAPDU
  last_keepalive : Nat
  global_buffer : List Nat
  buffer_owner : BufferOwner
  app : App
  calls : List Call

/-- The fields of `tusb_control_request_t` the handler reads, and the bytes
the host sends in the data stage of an OUT transfer. -/
structure Request where
  bRequest : Nat
  wLength : Nat
  payload : List Nat
  deriving DecidableEq, Repr

/-- Calls made between state `s` and the later state `t`. -/
def callsDuring {App : Type} (s t : State App) : List Call :=
  t.calls.drop s.calls.length

/-- Store `bytes` into `buf` from offset `off` on, inside the buffer only. -/
def writeAt (buf : List Nat) (off : Nat) (bytes : List Nat) : List Nat :=
  match bytes with
  | [] => buf
  | b :: rest => writeAt (buf.set off b) (off + 1) rest

/-- Modelled from the spec: TinyUSB is not among the sources.  An OUT control
transfer armed on `global_buffer` with length `len` stores the first `len`
bytes of the host's data stage at the start of the buffer. -/
def tud_control_xfer_out (buf : List Nat) (len : Nat) (payload : List Nat) : List Nat :=
  writeAt buf 0 (payload.take len)

/-! ## webusb.c -/

/-- Function `webusb_init` (webusb.c:32-37). -/
def webusb_init {App : Type} (s : State App) : State App :=
  { s with state := STATE_IDLE, last_keepalive := 0 }

/-- Lines 40-45 of `webusb_loop`: the inactivity time-out. -/
def webusb_loop_timeout {App : Type} (tick : Nat) (s : State App) : State App :=
  if sub32 tick s.last_keepalive > 2000 ∧ s.state = STATE_HOLD_BUF then
    { s with
      buffer_owner := release_apdu_buffer BUFFER_OWNER_WEBUSB s.buffer_owner
      calls := s.calls ++ [Call.release_apdu_buffer BUFFER_OWNER_WEBUSB]
      state := STATE_IDLE }
  else s

/-- Lines 54-60 of `webusb_loop`: parse the command and, when it parses,
hand it to `process_apdu`. -/
def webusb_loop_dispatch {App : Type} (P : Platform App) (s : State App) : State App :=
  let r := P.build_capdu s.apdu_cmd s.global_buffer s.apdu_buffer_size
  let s1 : State App :=
    { s with apdu_cmd := r.2.1, global_buffer := r.2.2, calls := s.calls ++ [Call.build_capdu] }
  if r.1 < 0 then
    { s1 with apdu_resp := { len := 0, sw := SW_WRONG_LENGTH } }
  else
    let q := P.process_apdu s1.app s1.apdu_cmd s1.apdu_resp s1.global_buffer
    { s1 with
      app := q.1
      apdu_resp := q.2.1
      global_buffer := q.2.2
      calls := s1.calls ++ [Call.process_apdu] }

/-- Lines 62-67 of `webusb_loop`: append the status word and publish the
response. -/
def webusb_loop_serialize {App : Type} (s : State App) : State App :=
  let LL := s.apdu_resp.len
  let SW := s.apdu_resp.sw
  { s with
    apdu_buffer_size := (LL + 2) % 2 ^ 16
    global_buffer := (s.global_buffer.set LL (HI SW)).set (LL + 1) (LO SW)
    state := STATE_SENDING_RESP }

/-- Function `webusb_loop` (webusb.c:39-68); `tick` is the value returned by
`device_get_tick()`. -/
def webusb_loop {App : Type} (P : Platform App) (tick : Nat) (s : State App) : State App :=
  let s1 := webusb_loop_timeout tick s
  if s1.state ≠ STATE_PROCESS then s1
  else webusb_loop_serialize (webusb_loop_dispatch P s1)

/-- Function `webusb_handle_interface_request` (webusb.c:128-171); `tick` is
the value returned by `device_get_tick()`. -/
def webusb_handle_interface_request {App : Type} (P : Platform App) (tick : Nat)
    (request : Request) (s : State App) : Bool × State App :=
  let s0 : State App := { s with last_keepalive := tick % 2 ^ 32 }
  if request.bRequest = WEBUSB_REQ_CMD then
    if s0.state ≠ STATE_IDLE ∧ s0.state ≠ STATE_HOLD_BUF then (false, s0)
    else
      let a := acquire_apdu_buffer BUFFER_OWNER_WEBUSB s0.buffer_owner
      let s1 : State App :=
        { s0 with
          buffer_owner := a.2
          calls := s0.calls ++ [Call.acquire_apdu_buffer BUFFER_OWNER_WEBUSB] }
      if a.1 ≠ 0 then (false, s1)
      else
        let s2 : State App := { s1 with state := STATE_HOLD_BUF }
        if request.wLength > P.APDU_BUFFER_SIZE then (false, s2)
        else
          (true,
            { s2 with
              global_buffer := tud_control_xfer_out s2.global_buffer request.wLength request.payload
              calls := s2.calls ++ [Call.tud_control_xfer XferTarget.global_buffer request.wLength]
              apdu_buffer_size := request.wLength
              state := STATE_RECVING })
  else if request.bRequest = WEBUSB_REQ_RESP then
    if s0.state = STATE_SENDING_RESP then
      let len := MIN s0.apdu_buffer_size request.wLength
      (true,
        { s0 with
          calls := s0.calls ++ [Call.tud_control_xfer XferTarget.global_buffer len]
          state := STATE_SENT_RESP })
    else (false, s0)
  else if request.bRequest = WEBUSB_REQ_STAT then
    (true, { s0 with calls := s0.calls ++ [Call.tud_control_xfer XferTarget.state_byte 1] })
  else (false, s0)

/-- Function `USBD_WEBUSB_TxSent` (webusb.c:173-182). -/
def USBD_WEBUSB_TxSent {App : Type} (s : State App) : Nat × State App :=
  if s.state = STATE_SENT_RESP then (0, { s with state := STATE_HOLD_BUF }) else (0, s)

/-- Function `USBD_WEBUSB_RxReady` (webusb.c:184-190). -/
def USBD_WEBUSB_RxReady {App : Type} (s : State App) : Nat × State App :=
  (0, { s with state := STATE_PROCESS })

/-! ## The transport as a transition system -/

/-- What can happen to the transport between two instructions of the main
loop: the loop polls it at some tick, the host sends an interface request at
some tick, the USB stack reports the end of a data stage, or another transport
calls the broker under its own identity. -/
inductive Event where
  | loop (tick : Nat)
  | request (tick : Nat) (request : Request)
  | RxReady
  | TxSent
  | other_acquire (owner : BufferOwner)
  | other_release (owner : BufferOwner)
  deriving DecidableEq, Repr

/-- One event applied to the state. -/
def step {App : Type} (P : Platform App) (e : Event) (s : State App) : State App :=
  match e with
  | Event.loop tick => webusb_loop P tick s
  | Event.request tick request => (webusb_handle_interface_request P tick request s).2
  | Event.RxReady => (USBD_WEBUSB_RxReady s).2
  | Event.TxSent => (USBD_WEBUSB_TxSent s).2
  | Event.other_acquire owner =>
    { s with buffer_owner := (acquire_apdu_buffer owner s.buffer_owner).2 }
  | Event.other_release owner =>
    { s with buffer_owner := release_apdu_buffer owner s.buffer_owner }

/-- A sequence of events applied from left to right. -/
def run {App : Type} (P : Platform App) (es : List Event) (s : State App) : State App :=
  es.foldl (fun t e => step P e t) s

/-- The ownership invariant: outside `STATE_IDLE` the WebUSB transport holds
the buffer. -/
def owned {App : Type} (s : State App) : Prop :=
  s.state ≠ STATE_IDLE → s.buffer_owner = BUFFER_OWNER_WEBUSB

/-- The precondition the code leaves to its callers: `USBD_WEBUSB_RxReady`
is not delivered in `STATE_IDLE` (its comment expects `STATE_RECVING`), and
the other transports use the broker under their own identity. -/
def allowed {App : Type} (e : Event) (s : State App) : Prop :=
  match e with
  | Event.RxReady => s.state ≠ STATE_IDLE
  | Event.other_acquire owner => owner ≠ BUFFER_OWNER_WEBUSB
  | Event.other_release owner => owner ≠ BUFFER_OWNER_WEBUSB
  | _ => True

/-- Every event of the sequence is allowed in the state it arrives in. -/
def admissible {App : Type} (P : Platform App) (es : List Event) (s : State App) : Prop :=
  match es with
  | [] => True
  | e :: rest => allowed e s ∧ admissible P rest (step P e s)

instance owned_decidable {App : Type} (s : State App) : Decidable (owned s) :=
  inferInstanceAs (Decidable (s.state ≠ STATE_IDLE → s.buffer_owner = BUFFER_OWNER_WEBUSB))

instance allowed_decidable {App : Type} (e : Event) (s : State App) : Decidable (allowed e s) :=
  match e with
  | Event.RxReady => inferInstanceAs (Decidable (s.state ≠ STATE_IDLE))
  | Event.other_acquire owner => inferInstanceAs (Decidable (owner ≠ BUFFER_OWNER_WEBUSB))
  | Event.other_release owner => inferInstanceAs (Decidable (owner ≠ BUFFER_OWNER_WEBUSB))
  | Event.loop _ => inferInstanceAs (Decidable True)
  | Event.request _ _ => inferInstanceAs (Decidable True)
  | Event.TxSent => inferInstanceAs (Decidable True)

instance admissible_decidable {App : Type} (P : Platform App) :
    (es : List Event) → (s : State App) → Decidable (admissible P es s)
  | [], _ => isTrue trivial
  | e :: rest, s =>
    @instDecidableAnd _ _ (allowed_decidable e s) (admissible_decidable P rest (step P e s))

/-- A host that only polls: each pair `(t, t1)` is a `WEBUSB_REQ_STAT` request
handled at tick `t` followed by a pass of the main loop at tick `t1`. -/
def stat_polling (polls : List (Nat × Nat)) : List Event :=
  match polls with
  | [] => []
  | p :: rest =>
    Event.request p.1 { bRequest := WEBUSB_REQ_STAT, wLength := 1, payload := [] }
      :: Event.loop p.2 :: stat_polling rest

/-! ## Evaluation platform -/

/-- A small platform for evaluating the model: the parser rejects commands
shorter than the four header bytes, the application counts its invocations and
answers one byte `0xAB` with status `0x9000`. -/
def demoPlatform : Platform Nat where
  APDU_BUFFER_SIZE := 16
  build_capdu := fun c buf len =>
    if len < 4 then (-1, c, buf)
    else (0, { c with cla := buf.getD 0 0, ins := buf.getD 1 0, p1 := buf.getD 2 0, p2 := buf.getD 3 0 }, buf)
  process_apdu := fun app _ _ buf => (app + 1, { len := 1, sw := 0x9000 }, buf.set 0 0xAB)

/-- A state of the demo platform with a 16-byte buffer. -/
def demoState (st : Int) (size keepalive : Nat) (owner : BufferOwner) : State Nat where
  state := st
  apdu_buffer_size := size
  apdu_cmd := { cla := 0, ins := 0, p1 := 0, p2 := 0, lc := 0, le := 0 }
  apdu_resp := { len := 7, sw := 0x1234 }
  last_keepalive := keepalive
  global_buffer := [0x00, 0xA4, 0x04, 0x00, 5, 6, 7, 8, 9, 10, 11, 12, 13, 14, 15, 16]
  buffer_owner := owner
  app := 0
  calls := []

end Webusb

namespace Oath

/-! ## Status words, tags and limits (apdu.h and oath.h, absent from the sources) -/

/-- Modelled from the spec: status words of section 6 (`apdu.h` is not among
the sources). -/
def SW_NO_ERROR : Nat := 0x9000
/-- Modelled from the spec: "wrong length" (section 6). -/
def SW_WRONG_LENGTH : Nat := 0x6700
/-- Modelled from the spec: "wrong data" (section 6). -/
def SW_WRONG_DATA : Nat := 0x6A80
/-- Modelled from the spec: "conditions not satisfied" (section 6). -/
def SW_CONDITIONS_NOT_SATISFIED : Nat := 0x6985
/-- Modelled from the spec: "security status not satisfied" (section 6). -/
def SW_SECURITY_STATUS_NOT_SATISFIED : Nat := 0x6982
/-- Modelled from the spec: "not enough space" (section 6). -/
def SW_NOT_ENOUGH_SPACE : Nat := 0x6A84
/-- Modelled from the spec: "instruction not supported" (section 6). -/
def SW_INS_NOT_SUPPORTED : Nat := 0x6D00

/-- Modelled from the spec: `oath.h` is not among the sources; test_oath.c
writes the name tag as `0x71` (test_put) and as `OATH_TAG_NAME` (test_calc)
for the same credential. -/
def OATH_TAG_NAME : Nat := 0x71
/-- Modelled from the spec: the key tag, `0x73` in test_put. -/
def OATH_TAG_KEY : Nat := 0x73
/-- Modelled from the spec: the challenge tag, `0x74` in test_calc_all. -/
def OATH_TAG_CHALLENGE : Nat := 0x74
/-- Modelled from the spec: the tag of the truncated response, `0x76` in the
protocol the firmware implements. -/
def OATH_TAG_RESPONSE : Nat := 0x76
/-- Modelled from the spec: the property tag, `0x78` in test_put; it is
followed by the property byte itself, without a length byte. -/
def OATH_TAG_PROPERTY : Nat := 0x78
/-- Modelled from the spec: the tag of the initial HOTP counter, `0x7A` in the
protocol the firmware implements. -/
def OATH_TAG_COUNTER : Nat := 0x7A

/-- Modelled from the spec: the property bit "increasing-only".  test_put
creates the credential `inc` with property byte `0x01` and
test_increasing_only observes the policy on it, so the bit is `0x01`. -/
def OATH_PROP_INC : Nat := 0x01

/-- Modelled from the spec: the high nibble of the algorithm byte is the
credential type (test_oath.c: `0x11` is HOTP+SHA1, `0x21` is TOTP+SHA1). -/
def OATH_TYPE_MASK : Nat := 0xF0
/-- Modelled from the spec: credential type HOTP, see `OATH_TYPE_MASK`. -/
def OATH_TYPE_HOTP : Nat := 0x10

/-- Modelled from the spec: `oath.h` and the crypto library are not among the
sources.  The limits and collaborators the OATH application is built against:
the maximum key and challenge lengths, the number of record slots, the set of
supported algorithm bytes, and the keyed-MAC primitive (hash variant taken
from the algorithm byte, then secret and message). -/
structure Config where
  MAX_KEY_LEN : Nat
  MAX_CHALLENGE_LEN : Nat
  MAX_RECORDS : Nat
  supported : Nat → Bool
  mac : Nat → List Nat → List Nat → List Nat

/-! ## Data model (spec section 3) -/

/-- Modelled from the spec: a credential record (section 3).  `key` is the
value of the key TLV: algorithm byte, digit count, secret bytes; `challenge`
is the counter, or the last accepted challenge of an increasing-only
credential, as a number. -/
structure OATH_RECORD where
  name : List Nat
  key : List Nat
  prop : Nat
  challenge : Nat
  deriving DecidableEq, Repr

/-- Modelled from the spec: the response of section 3, response bytes and the
status word of one command (`apdu.h` is not among the sources). -/
structure Response where
  data : List Nat
  sw : Nat
  deriving DecidableEq, Repr

/-- The number a big-endian byte string stands for. -/
def be_value (bytes : List Nat) : Nat :=
  bytes.foldl (fun acc b => acc * 256 + b) 0

/-- Tag and length byte of the TLV at `offset`, when both lie inside `data`. -/
def tlv_header (data : List Nat) (offset : Nat) : Option (Nat × Nat) :=
  if offset + 2 ≤ data.length then some (data.getD offset 0, data.getD (offset + 1) 0)
  else none

/-- The `len` bytes of `data` from `offset` on. -/
def slice (data : List Nat) (offset len : Nat) : List Nat :=
  (data.drop offset).take len

/-- Modelled from the spec: lookup in the credential store (`get(name)`,
section 6); the live record called `name`, if any. -/
def find_record (records : List OATH_RECORD) (name : List Nat) : Option OATH_RECORD :=
  records.find? (fun r => r.name = name)

/-- Modelled from the spec: what a well-formed PUT carries (section 4.3). -/
structure PutRequest where
  name : List Nat
  key : List Nat
  prop : Nat
  counter : Nat
  deriving DecidableEq, Repr

/-- Modelled from the spec: the optional entries of a PUT behind the key TLV
(section 4.3), read from `offset` on, in any order: the property entry (tag,
then the property byte, as in `data_with_prop` of test_put) and the counter
TLV.  The result is the property byte (`prop` when there is no property
entry) and the value bytes of the counter TLV (`counter` when there is
none).  An entry that is cut off is a length error (test_regression_fuzz,
broken HOTP tag); bytes behind the last entry are not looked at.  `fuel`
bounds the number of entries read; the length of the input is enough, each
entry taking at least two bytes. -/
def parse_entries (data : List Nat) (fuel offset prop : Nat) (counter : Option (List Nat)) :
    Except Nat (Nat × Option (List Nat)) :=
  match fuel with
  | 0 => Except.ok (prop, counter)
  | fuel + 1 =>
    if offset < data.length ∧ data.getD offset 0 = OATH_TAG_PROPERTY then
      if offset + 2 ≤ data.length then
        parse_entries data fuel (offset + 2) (data.getD (offset + 1) 0) counter
      else Except.error SW_WRONG_LENGTH
    else if offset < data.length ∧ data.getD offset 0 = OATH_TAG_COUNTER then
      match tlv_header data offset with
      | none => Except.error SW_WRONG_LENGTH
      | some (_, len) =>
        if offset + 2 + len > data.length then Except.error SW_WRONG_LENGTH
        else parse_entries data fuel (offset + 2 + len) prop (some (slice data (offset + 2) len))
    else Except.ok (prop, counter)

/-- Modelled from the spec: the initial counter of a PUT whose algorithm byte
is `alg` (four bytes, big-endian, HOTP only), zero without a counter TLV.  A
counter on a credential that is not HOTP is a data error
(test_put_unsupported_counter); a counter of a length other than four is
taken as a data error. -/
def counter_value (alg : Nat) (counter : Option (List Nat)) : Except Nat Nat :=
  match counter with
  | none => Except.ok 0
  | some bytes =>
    if alg &&& OATH_TYPE_MASK ≠ OATH_TYPE_HOTP then Except.error SW_WRONG_DATA
    else if bytes.length ≠ 4 then Except.error SW_WRONG_DATA
    else Except.ok (be_value bytes)

/-- Modelled from the spec: the validation of a PUT (section 4.3), `oath.c` is
not among the sources.  The order is the one of section 4.3: first the
layout, where a missing or truncated name TLV, a missing key TLV (also a
first or second tag that is not the name or key tag) and a truncated key,
property or counter entry are length errors; then the key length, a data
error above the maximum; then the algorithm byte, a data error when
unsupported; then the counter, a data error on a credential that is not
HOTP.  One case is answered as test_put_long_key requires (declared key
length `0xFF`, three bytes supplied, `SW_WRONG_DATA`): a cut-off key TLV
whose declared length exceeds the maximum is a data error, not a length
error. -/
def parse_put (cfg : Config) (data : List Nat) : Except Nat PutRequest :=
  match tlv_header data 0 with
  | none => Except.error SW_WRONG_LENGTH
  | some (tag, name_len) =>
    if tag ≠ OATH_TAG_NAME then Except.error SW_WRONG_LENGTH
    else
      match tlv_header data (2 + name_len) with
      | none => Except.error SW_WRONG_LENGTH
      | some (ktag, key_len) =>
        if ktag ≠ OATH_TAG_KEY then Except.error SW_WRONG_LENGTH
        else if 2 + name_len + 2 + key_len > data.length then
          if key_len > cfg.MAX_KEY_LEN then Except.error SW_WRONG_DATA
          else Except.error SW_WRONG_LENGTH
        else
          match parse_entries data data.length (2 + name_len + 2 + key_len) 0 none with
          | Except.error sw => Except.error sw
          | Except.ok (prop, counter) =>
            let key := slice data (2 + name_len + 2) key_len
            if key_len > cfg.MAX_KEY_LEN then Except.error SW_WRONG_DATA
            else if cfg.supported (key.getD 0 0) = false then Except.error SW_WRONG_DATA
            else
              match counter_value (key.getD 0 0) counter with
              | Except.error sw => Except.error sw
              | Except.ok initial =>
                Except.ok
                  { name := slice data 2 name_len, key := key, prop := prop, counter := initial }

/-- Modelled from the spec: PUT (section 4.3).  After validation, a name
already present among the live records is refused with "conditions not
satisfied", a full store with "not enough space"; otherwise the record is
created. -/
def oath_put (cfg : Config) (data : List Nat) (records : List OATH_RECORD) :
    Response × List OATH_RECORD :=
  match parse_put cfg data with
  | Except.error sw => ({ data := [], sw := sw }, records)
  | Except.ok req =>
    if (find_record records req.name).isSome then
      ({ data := [], sw := SW_CONDITIONS_NOT_SATISFIED }, records)
    else if records.length ≥ cfg.MAX_RECORDS then
      ({ data := [], sw := SW_NOT_ENOUGH_SPACE }, records)
    else
      ({ data := [], sw := SW_NO_ERROR },
        records ++ [{ name := req.name, key := req.key, prop := req.prop, challenge := req.counter }])

/-! ## DELETE -/

/-- Modelled from the spec: the name TLV a DELETE starts with (section 4.3);
bytes after it are not looked at (test_space_full deletes with the whole PUT
payload). -/
def parse_name (data : List Nat) : Except Nat (List Nat) :=
  match tlv_header data 0 with
  | none => Except.error SW_WRONG_LENGTH
  | some (tag, name_len) =>
    if tag ≠ OATH_TAG_NAME then Except.error SW_WRONG_DATA
    else if 2 + name_len > data.length then Except.error SW_WRONG_LENGTH
    else Except.ok (slice data 2 name_len)

/-- Modelled from the spec: DELETE (section 4.3) removes the record with the
given name; no such record is still success. -/
def oath_delete (data : List Nat) (records : List OATH_RECORD) :
    Response × List OATH_RECORD :=
  match parse_name data with
  | Except.error sw => ({ data := [], sw := sw }, records)
  | Except.ok name =>
    ({ data := [], sw := SW_NO_ERROR }, records.filter (fun r => ¬ (r.name = name)))

/-! ## CALCULATE -/

/-- Modelled from the spec: the dynamic offset of section 4.3, the low nibble
of the last MAC byte. -/
def truncation_offset (m : List Nat) : Nat :=
  (m.getD (m.length - 1) 0) &&& 0x0F

/-- Modelled from the spec: the four bytes read at the dynamic offset, the
most significant bit of the first one masked to zero (section 4.3). -/
def dynamic_truncate (m : List Nat) : List Nat :=
  [(m.getD (truncation_offset m) 0) &&& 0x7F,
   m.getD (truncation_offset m + 1) 0,
   m.getD (truncation_offset m + 2) 0,
   m.getD (truncation_offset m + 3) 0]

/-- Modelled from the spec: `n` written with exactly `d` decimal characters
(ASCII), zero-padded on the left. -/
def zero_padded (d n : Nat) : List Nat :=
  match d with
  | 0 => []
  | d + 1 => zero_padded d (n / 10) ++ [48 + n % 10]

/-- The number a string of decimal characters (ASCII) stands for. -/
def decimal_value (cs : List Nat) : Nat :=
  cs.foldl (fun acc c => acc * 10 + (c - 48)) 0

/-- Modelled from the spec: the decimal code of section 4.3, the truncated
value reduced modulo `10^digits` and formatted as zero-padded decimal. -/
def otp_code (m : List Nat) (digits : Nat) : List Nat :=
  zero_padded digits (be_value (dynamic_truncate m) % 10 ^ digits)

/-- Modelled from the spec: the binary response of CALCULATE, tag RESPONSE,
length 5, the digit count, the four masked bytes (test_calc, lines 289-293). -/
def calculate_response (m : List Nat) (digits : Nat) : List Nat :=
  [OATH_TAG_RESPONSE, 5, digits] ++ dynamic_truncate m

/-- Modelled from the spec: the validation of a CALCULATE (section 4.3): name
TLV, then challenge TLV.  A missing or cut-off header is a length error; a
challenge length of zero or above the maximum is a data error, decided before
the challenge bytes are looked for (test_calc, lines 307-312); a challenge
shorter than declared is a length error.  A first or second tag other than
name and challenge is taken as a data error (test_calc_all, lines 393-398). -/
def parse_calculate (cfg : Config) (data : List Nat) : Except Nat (List Nat × List Nat) :=
  match tlv_header data 0 with
  | none => Except.error SW_WRONG_LENGTH
  | some (tag, name_len) =>
    if tag ≠ OATH_TAG_NAME then Except.error SW_WRONG_DATA
    else
      match tlv_header data (2 + name_len) with
      | none => Except.error SW_WRONG_LENGTH
      | some (ctag, challenge_len) =>
        if ctag ≠ OATH_TAG_CHALLENGE then Except.error SW_WRONG_DATA
        else if challenge_len = 0 ∨ challenge_len > cfg.MAX_CHALLENGE_LEN then
          Except.error SW_WRONG_DATA
        else if 2 + name_len + 2 + challenge_len > data.length then Except.error SW_WRONG_LENGTH
        else Except.ok (slice data 2 name_len, slice data (2 + name_len + 2) challenge_len)

/-- Modelled from the spec: the increasing-only check as test_increasing_only
fixes it (challenges 2, 1, 2, 3, 2 give success, `0x6982`, success, success,
`0x6982`): a challenge is refused when it is below the last accepted one, and
a challenge equal to it is accepted. -/
def challenge_refused (last challenge : Nat) : Bool :=
  decide (challenge < last)

/-- The increasing-only check in the words of spec section 4.3: a challenge
"not strictly greater than the last accepted value" is refused. -/
def challenge_refused_strict (last challenge : Nat) : Bool :=
  decide (¬ (last < challenge))

/-- Modelled from the spec: the store update of CALCULATE (section 4.3);
`challenge` becomes the last accepted value of the record called `name`. -/
def store_challenge (records : List OATH_RECORD) (name : List Nat) (challenge : Nat) :
    List OATH_RECORD :=
  records.map (fun r => if r.name = name then { r with challenge := challenge } else r)

/-- Modelled from the spec: CALCULATE (section 4.3), with the check
`refused last challenge` for increasing-only credentials.  An unknown name is
success with an empty result; a refused challenge is "security status not
satisfied" without mutation; otherwise the MAC of the challenge under the
record's secret is truncated into the response and an increasing-only record
stores the challenge as its new last accepted value. -/
def oath_calculate_with (refused : Nat → Nat → Bool) (cfg : Config) (data : List Nat)
    (records : List OATH_RECORD) : Response × List OATH_RECORD :=
  match parse_calculate cfg data with
  | Except.error sw => ({ data := [], sw := sw }, records)
  | Except.ok (name, challenge) =>
    match find_record records name with
    | none => ({ data := [], sw := SW_NO_ERROR }, records)
    | some r =>
      if r.prop &&& OATH_PROP_INC ≠ 0 then
        if refused r.challenge (be_value challenge) = true then
          ({ data := [], sw := SW_SECURITY_STATUS_NOT_SATISFIED }, records)
        else
          ({ data := calculate_response (cfg.mac (r.key.getD 0 0) (r.key.drop 2) challenge)
                (r.key.getD 1 0),
             sw := SW_NO_ERROR },
            store_challenge records name (be_value challenge))
      else
        ({ data := calculate_response (cfg.mac (r.key.getD 0 0) (r.key.drop 2) challenge)
              (r.key.getD 1 0),
           sw := SW_NO_ERROR },
          records)

/-- Modelled from the spec: CALCULATE (section 4.3) with the increasing-only
check that test_increasing_only observes on the firmware. -/
def oath_calculate (cfg : Config) (data : List Nat) (records : List OATH_RECORD) :
    Response × List OATH_RECORD :=
  oath_calculate_with challenge_refused cfg data records

/-- CALCULATE with the increasing-only check in the words of the spec. -/
def oath_calculate_strict (cfg : Config) (data : List Nat) (records : List OATH_RECORD) :
    Response × List OATH_RECORD :=
  oath_calculate_with challenge_refused_strict cfg data records

/-! ## Command dispatch -/

/-- Modelled from the spec: the instructions that read or write credential
records, and any instruction the application does not know (`oath.h` is not
among the sources). -/
inductive Ins where
  | PUT
  | DELETE
  | CALCULATE
  | unknown
  deriving DecidableEq, Repr

/-- Modelled from the spec: a command (section 3), reduced to instruction and
data field. -/
structure Command where
  ins : Ins
  data : List Nat
  deriving DecidableEq, Repr

/-- Modelled from the spec: `oath_process_apdu` restricted to the commands
that touch credential records; an unknown instruction is answered
"instruction not supported" without mutation (test_invalid_ins). -/
def oath_process_apdu (cfg : Config) (c : Command) (records : List OATH_RECORD) :
    Response × List OATH_RECORD :=
  match c.ins with
  | Ins.PUT => oath_put cfg c.data records
  | Ins.DELETE => oath_delete c.data records
  | Ins.CALCULATE => oath_calculate cfg c.data records
  | Ins.unknown => ({ data := [], sw := SW_INS_NOT_SUPPORTED }, records)

/-- The store after a sequence of commands. -/
def run_commands (cfg : Config) (cs : List Command) (records : List OATH_RECORD) :
    List OATH_RECORD :=
  cs.foldl (fun rs c => (oath_process_apdu cfg c rs).2) records

/-- The status words of a sequence of commands, in order. -/
def run_statuses (cfg : Config) (cs : List Command) (records : List OATH_RECORD) : List Nat :=
  match cs with
  | [] => []
  | c :: rest =>
    (oath_process_apdu cfg c records).1.sw
      :: run_statuses cfg rest (oath_process_apdu cfg c records).2

/-! ## The keyed-MAC primitive used for evaluation: HMAC-SHA1 -/

/-- Modelled from the spec: part of the SHA-1 model (FIPS 180-4), rotation of
a 32-bit word to the left by `n` bits. -/
def rotl32 (x n : Nat) : Nat :=
  ((x <<< n) ||| (x >>> (32 - n))) % 2 ^ 32

/-- Modelled from the spec: part of the SHA-1 model, the big-endian words of a
byte block. -/
def block_words (bytes : List Nat) : List Nat :=
  match bytes with
  | a :: b :: c :: d :: rest => be_value [a, b, c, d] :: block_words rest
  | _ => []

/-- Modelled from the spec: part of the SHA-1 model, the message schedule;
`ws` holds the words so far, latest first. -/
def sha1_schedule (n : Nat) (ws : List Nat) : List Nat :=
  match n with
  | 0 => ws
  | n + 1 =>
    sha1_schedule n
      (rotl32 (ws.getD 2 0 ^^^ ws.getD 7 0 ^^^ ws.getD 13 0 ^^^ ws.getD 15 0) 1 :: ws)

/-- Modelled from the spec: part of the SHA-1 model, the round function of
round `t`. -/
def sha1_f (t b c d : Nat) : Nat :=
  if t < 20 then (b &&& c) ||| ((b ^^^ 0xFFFFFFFF) &&& d)
  else if t < 40 then b ^^^ c ^^^ d
  else if t < 60 then (b &&& c) ||| (b &&& d) ||| (c &&& d)
  else b ^^^ c ^^^ d

/-- Modelled from the spec: part of the SHA-1 model, the round constant of
round `t`. -/
def sha1_k (t : Nat) : Nat :=
  if t < 20 then 0x5A827999
  else if t < 40 then 0x6ED9EBA1
  else if t < 60 then 0x8F1BBCDC
  else 0xCA62C1D6

/-- Modelled from the spec: part of the SHA-1 model, the five chaining words. -/
structure Sha1State where
  a : Nat
  b : Nat
  c : Nat
  d : Nat
  e : Nat
  deriving DecidableEq, Repr

/-- Modelled from the spec: part of the SHA-1 model, the rounds over the
scheduled words, from round `t` on. -/
def sha1_rounds (t : Nat) (ws : List Nat) (h : Sha1State) : Sha1State :=
  match ws with
  | [] => h
  | w :: rest =>
    sha1_rounds (t + 1) rest
      { a := (rotl32 h.a 5 + sha1_f t h.b h.c h.d + h.e + w + sha1_k t) % 2 ^ 32
        b := h.a
        c := rotl32 h.b 30
        d := h.c
        e := h.d }

/-- Modelled from the spec: part of the SHA-1 model, the compression of one
64-byte block. -/
def sha1_compress (h : Sha1State) (block : List Nat) : Sha1State :=
  let r := sha1_rounds 0 (sha1_schedule 64 (block_words block).reverse).reverse h
  { a := (h.a + r.a) % 2 ^ 32
    b := (h.b + r.b) % 2 ^ 32
    c := (h.c + r.c) % 2 ^ 32
    d := (h.d + r.d) % 2 ^ 32
    e := (h.e + r.e) % 2 ^ 32 }

/-- The `n` low bytes of `x`, big-endian. -/
def be_bytes (n x : Nat) : List Nat :=
  match n with
  | 0 => []
  | n + 1 => (x >>> (8 * n)) % 256 :: be_bytes n x

/-- Modelled from the spec: part of the SHA-1 model, the padding: `0x80`,
zeros, the bit length on eight bytes. -/
def sha1_pad (msg : List Nat) : List Nat :=
  msg ++ [0x80] ++ List.replicate ((64 - (msg.length + 9) % 64) % 64) 0
    ++ be_bytes 8 (8 * msg.length)

/-- Modelled from the spec: part of the SHA-1 model, compression over the
first `n` blocks of `bytes`. -/
def sha1_blocks (n : Nat) (h : Sha1State) (bytes : List Nat) : Sha1State :=
  match n with
  | 0 => h
  | n + 1 => sha1_blocks n (sha1_compress h (bytes.take 64)) (bytes.drop 64)

/-- Modelled from the spec: the hash behind the keyed-MAC primitive, which
the spec treats as an external collaborator; SHA-1 as in FIPS 180-4. -/
def sha1 (msg : List Nat) : List Nat :=
  let h := sha1_blocks ((sha1_pad msg).length / 64)
    { a := 0x67452301, b := 0xEFCDAB89, c := 0x98BADCFE, d := 0x10325476, e := 0xC3D2E1F0 }
    (sha1_pad msg)
  be_bytes 4 h.a ++ be_bytes 4 h.b ++ be_bytes 4 h.c ++ be_bytes 4 h.d ++ be_bytes 4 h.e

/-- Modelled from the spec: the keyed-MAC primitive for the SHA-1 hash
variant, which the spec treats as an external collaborator; HMAC as in
RFC 2104. -/
def hmac_sha1 (key msg : List Nat) : List Nat :=
  let k0 := if key.length > 64 then sha1 key else key
  let k1 := k0 ++ List.replicate (64 - k0.length) 0
  sha1 (k1.map (fun b => b ^^^ 0x5c) ++ sha1 (k1.map (fun b => b ^^^ 0x36) ++ msg))

/-! ## The configuration and inputs of test_oath.c -/

/-- An evaluation configuration: the limits of the upstream headers, SHA-1
credentials of either type, HMAC-SHA1 as the keyed MAC. -/
def testConfig : Config where
  MAX_KEY_LEN := 66
  MAX_CHALLENGE_LEN := 8
  MAX_RECORDS := 100
  supported := fun alg => alg == 0x11 || alg == 0x21
  mac := fun _ key msg => hmac_sha1 key msg

/-- The ASCII codes of a string. -/
def ascii (s : String) : List Nat :=
  s.toList.map (fun c => c.toNat)

/-- The payload of the first PUT of test_put (test_oath.c:107) with the first
name character replaced by `c`. -/
def test_put_data (c : Nat) : List Nat :=
  [0x71, 0x03, c, 0x62, 0x63, 0x73, 0x05, 0x21, 0x06, 0x00, 0x01, 0x02]

/-- The payload `data_with_prop` of test_put (test_oath.c:130). -/
def data_with_prop : List Nat :=
  [0x71, 0x03, 0x69, 0x6E, 0x63, 0x73, 0x05, 0x21, 0x06, 0x00, 0x01, 0x02, 0x78, 0x01]

/-- The commands of test_put, in order: `abc`, `abc` again, ten more names,
then `inc`. -/
def test_put_commands : List Command :=
  [⟨Ins.PUT, test_put_data 0x61⟩, ⟨Ins.PUT, test_put_data 0x61⟩]
    ++ (List.range 10).map (fun i => ⟨Ins.PUT, test_put_data (0x62 + i)⟩)
    ++ [⟨Ins.PUT, data_with_prop⟩]

/-- The payload of test_increasing_only (test_oath.c:320-322) with last
challenge byte `c`. -/
def test_increasing_data (c : Nat) : List Nat :=
  [OATH_TAG_NAME, 0x03, 0x69, 0x6E, 0x63, OATH_TAG_CHALLENGE, 0x08, 0, 0, 0, 0, 0, 0, 0, c]

/-- The commands of test_increasing_only: challenges 2, 1, 2, 3, 2. -/
def test_increasing_commands : List Command :=
  [2, 1, 2, 3, 2].map (fun c => ⟨Ins.CALCULATE, test_increasing_data c⟩)

/-- The MAC quoted in test_calc (test_oath.c:290):
`cbba68f6d4c567bc4b0ffff136befc3d2d86231a`. -/
def test_calc_hmac : List Nat :=
  [0xcb, 0xba, 0x68, 0xf6, 0xd4, 0xc5, 0x67, 0xbc, 0x4b, 0x0f,
   0xff, 0xf1, 0x36, 0xbe, 0xfc, 0x3d, 0x2d, 0x86, 0x23, 0x1a]

/-- The payload of the first CALCULATE of test_calc (test_oath.c:284-288). -/
def test_calc_data : List Nat :=
  [OATH_TAG_NAME, 0x03, 0x61, 0x62, 0x63, OATH_TAG_CHALLENGE, 0x05, 0x21, 0x06, 0x00, 0x01, 0x02]

/-- The secret of the reference vector of test_hotp_touch
(test_oath.c:197-200), the ASCII string 12345678901234567890. -/
def rfc4226_secret : List Nat :=
  [0x31, 0x32, 0x33, 0x34, 0x35, 0x36, 0x37, 0x38, 0x39, 0x30,
   0x31, 0x32, 0x33, 0x34, 0x35, 0x36, 0x37, 0x38, 0x39, 0x30]

/-- The payload `rfc4226example` of test_hotp_touch (test_oath.c:197-200):
name `.4226`, HOTP+SHA1, six digits, the reference secret. -/
def rfc4226example : List Nat :=
  [OATH_TAG_NAME, 0x05, 0x2E, 0x34, 0x32, 0x32, 0x36, OATH_TAG_KEY, 22, 0x11, 0x06] ++ rfc4226_secret

/-- The status words of a sequence of CALCULATE payloads under the
CALCULATE implementation `impl`. -/
def calculate_statuses (impl : List Nat → List OATH_RECORD → Response × List OATH_RECORD)
    (payloads : List (List Nat)) (records : List OATH_RECORD) : List Nat :=
  match payloads with
  | [] => []
  | d :: rest => (impl d records).1.sw :: calculate_statuses impl rest (impl d records).2

/-- The store test_increasing_only starts from: the records left by
test_put. -/
def test_put_store : List OATH_RECORD :=
  run_commands testConfig test_put_commands []

/-- The secret of the credentials `H1` and `H1n` of test_hotp_touch
(test_oath.c:139-148): `Hello!` followed by `DE AD BE EF`. -/
def test_hotp_touch_secret : List Nat :=
  [0x48, 0x65, 0x6C, 0x6C, 0x6F, 0x21, 0xDE, 0xAD, 0xBE, 0xEF]

/-- Modelled from the spec: the HOTP code of a counter (sections 4.3 and
4.4): the counter as an 8-byte big-endian challenge, the keyed MAC under the
secret, the decimal code of `digits` characters. -/
def hotp_code (mac : List Nat → List Nat → List Nat) (secret : List Nat) (digits counter : Nat) :
    List Nat :=
  otp_code (mac secret (be_bytes 8 counter)) digits

end Oath

namespace Oath

/-! ## Touch output (pass.c and the touch path of oath.c, absent from the sources) -/

/-- Macro `PASS_MAX_PASSWORD_LENGTH` (pass.h:7). -/
def PASS_MAX_PASSWORD_LENGTH : Nat := 32

/-- Macro `TOUCH_SHORT` (device.h:11). -/
def TOUCH_SHORT : Nat := 1
/-- Macro `TOUCH_LONG` (device.h:12). -/
def TOUCH_LONG : Nat := 2

/-- Modelled from the spec: the slot kind "off"; the header that declares the
`PASS_SLOT_*` values is not among the sources, check_pass_config
(test_oath.c:65) orders them with `PASS_SLOT_OFF` lowest. -/
def PASS_SLOT_OFF : Nat := 0
/-- Modelled from the spec: the slot kind "reference to a named credential",
see `PASS_SLOT_OFF`. -/
def PASS_SLOT_OATH : Nat := 1
/-- Modelled from the spec: the slot kind "static password", see
`PASS_SLOT_OFF`. -/
def PASS_SLOT_STATIC : Nat := 2

/-- Modelled from the spec: what a touch slot holds (section 3): off, a
reference to a credential by name, or static password bytes. -/
inductive SlotKind where
  | off
  | oath (name : List Nat)
  | static (password : List Nat)
  deriving DecidableEq, Repr

/-- Modelled from the spec: a touch slot binding (section 3), its content and
the flag "append terminator character after output". -/
structure PassSlot where
  kind : SlotKind
  with_enter : Nat
  deriving DecidableEq, Repr

/-- Modelled from the spec: the two slots, addressed by gesture (section 4.4). -/
structure PassSlots where
  short : PassSlot
  long : PassSlot
  deriving DecidableEq, Repr

/-- Modelled from the spec: the slot a command or a gesture addresses.
`P1 = 1` and `TOUCH_SHORT` address the first slot, `P1 = 2` and `TOUCH_LONG`
the second (test_static_pass writes with `P1 = 2` and reads with
`TOUCH_LONG`; test_hotp_touch binds with `P1 = 1` and reads with
`TOUCH_SHORT`). -/
inductive SlotId where
  | SHORT
  | LONG
  deriving DecidableEq, Repr

/-- The gesture that reads a slot. -/
def SlotId.touch (slot : SlotId) : Nat :=
  match slot with
  | SlotId.SHORT => TOUCH_SHORT
  | SlotId.LONG => TOUCH_LONG

/-- The binding of a slot. -/
def get_slot (slots : PassSlots) (slot : SlotId) : PassSlot :=
  match slot with
  | SlotId.SHORT => slots.short
  | SlotId.LONG => slots.long

/-- The slots with the binding of one slot replaced. -/
def set_slot (slots : PassSlots) (slot : SlotId) (binding : PassSlot) : PassSlots :=
  match slot with
  | SlotId.SHORT => { slots with short := binding }
  | SlotId.LONG => { slots with long := binding }

/-- Both slots off. -/
def slots_off : PassSlots :=
  { short := { kind := SlotKind.off, with_enter := 0 },
    long := { kind := SlotKind.off, with_enter := 0 } }

/-- Modelled from the spec: the state of the OATH and touch-output
applications: the credential store, the slot table in memory, the slot table
in the store (section 6, "one durable slot-binding table"), and the listing
entries a "send remaining" has still to return. -/
structure Engine where
  records : List OATH_RECORD
  slots : PassSlots
  stored_slots : PassSlots
  pending : List (List Nat)
  deriving DecidableEq, Repr

/-- The engine after provisioning (`oath_install(1)`, `pass_install(1)`):
no record, both slots off. -/
def fresh_engine : Engine :=
  { records := [], slots := slots_off, stored_slots := slots_off, pending := [] }

/-- Modelled from the spec: `pass_install` (pass.h:9).  With `reset` the slot
table is wiped and persisted; without, it is reloaded from the store
(test_static_pass: "reload from file"). -/
def pass_install (reset : Nat) (e : Engine) : Engine :=
  if reset ≠ 0 then { e with slots := slots_off, stored_slots := slots_off }
  else { e with slots := e.stored_slots }

/-- Modelled from the spec: `pass_write_config` (pass.h:11) for the slot `P1`
addresses, wire format of test_static_pass: kind byte, then for a static
password the length byte, the password bytes and the terminator flag.  A
password longer than `PASS_MAX_PASSWORD_LENGTH`, or a data field whose length
does not match the declared password length, is a length error; a kind other
than off and static is a data error.  An accepted configuration is persisted. -/
def pass_write_config (slot : SlotId) (data : List Nat) (e : Engine) : Response × Engine :=
  if data.length < 1 then ({ data := [], sw := SW_WRONG_LENGTH }, e)
  else if data.getD 0 0 = PASS_SLOT_OFF then
    ({ data := [], sw := SW_NO_ERROR },
      { e with
        slots := set_slot e.slots slot { kind := SlotKind.off, with_enter := 0 }
        stored_slots := set_slot e.slots slot { kind := SlotKind.off, with_enter := 0 } })
  else if data.getD 0 0 = PASS_SLOT_STATIC then
    if data.length < 3 then ({ data := [], sw := SW_WRONG_LENGTH }, e)
    else if data.getD 1 0 > PASS_MAX_PASSWORD_LENGTH then
      ({ data := [], sw := SW_WRONG_LENGTH }, e)
    else if data.length ≠ 3 + data.getD 1 0 then ({ data := [], sw := SW_WRONG_LENGTH }, e)
    else
      ({ data := [], sw := SW_NO_ERROR },
        { e with
          slots := set_slot e.slots slot
            { kind := SlotKind.static (slice data 2 (data.getD 1 0)),
              with_enter := data.getD (2 + data.getD 1 0) 0 }
          stored_slots := set_slot e.slots slot
            { kind := SlotKind.static (slice data 2 (data.getD 1 0)),
              with_enter := data.getD (2 + data.getD 1 0) 0 } })
  else ({ data := [], sw := SW_WRONG_DATA }, e)

/-- Modelled from the spec: SET_DEFAULT binds the slot `P1` addresses to the
credential named in the data field (section 3, a weak reference by name) with
the terminator flag clear (check_pass_config asserts `with_enter == 0`); a
missing or cut-off name TLV is a length error (test_regression_fuzz). -/
def oath_set_default (slot : SlotId) (data : List Nat) (e : Engine) : Response × Engine :=
  match parse_name data with
  | Except.error sw => ({ data := [], sw := sw }, e)
  | Except.ok name =>
    ({ data := [], sw := SW_NO_ERROR },
      { e with
        slots := set_slot e.slots slot { kind := SlotKind.oath name, with_enter := 0 }
        stored_slots := set_slot e.slots slot { kind := SlotKind.oath name, with_enter := 0 } })

/-- The terminator character `'\r'` when the flag is set. -/
def terminator (with_enter : Nat) : List Nat :=
  if with_enter ≠ 0 then [13] else []

/-- Modelled from the spec: `pass_handle_touch` (pass.h:12, section 4.4):
the return value, the characters written to `output`, and the engine.  The
short and the long gesture read their slot, any other gesture kind is an
error (`-1`).  A slot that is off, or bound to a credential that is no longer
stored, gives empty output (`0`).  A static password is emitted verbatim.  A
credential reference derives the next challenge once (the incremented
counter for HOTP, persisted; `time_step` for TOTP) and emits the decimal
code.  The terminator follows when the slot's flag is set. -/
def pass_handle_touch (cfg : Config) (time_step : Nat) (touch_type : Nat) (e : Engine) :
    Int × List Nat × Engine :=
  if touch_type ≠ TOUCH_SHORT ∧ touch_type ≠ TOUCH_LONG then (-1, [], e)
  else
    let slot := if touch_type = TOUCH_SHORT then e.slots.short else e.slots.long
    match slot.kind with
    | SlotKind.off => (0, [], e)
    | SlotKind.static password =>
      ((password ++ terminator slot.with_enter).length,
        password ++ terminator slot.with_enter, e)
    | SlotKind.oath name =>
      match find_record e.records name with
      | none => (0, [], e)
      | some r =>
        if r.key.getD 0 0 &&& OATH_TYPE_MASK = OATH_TYPE_HOTP then
          ((otp_code (cfg.mac (r.key.getD 0 0) (r.key.drop 2) (be_bytes 8 (r.challenge + 1)))
              (r.key.getD 1 0) ++ terminator slot.with_enter).length,
            otp_code (cfg.mac (r.key.getD 0 0) (r.key.drop 2) (be_bytes 8 (r.challenge + 1)))
              (r.key.getD 1 0) ++ terminator slot.with_enter,
            { e with records := store_challenge e.records name (r.challenge + 1) })
        else
          ((otp_code (cfg.mac (r.key.getD 0 0) (r.key.drop 2) (be_bytes 8 time_step))
              (r.key.getD 1 0) ++ terminator slot.with_enter).length,
            otp_code (cfg.mac (r.key.getD 0 0) (r.key.drop 2) (be_bytes 8 time_step))
              (r.key.getD 1 0) ++ terminator slot.with_enter,
            e)

/-- Modelled from the spec: what `pass_read_config` (pass.h:10) reports for
one slot, layout of check_pass_config (test_oath.c:56-65): the kind byte; for
a credential reference the name length and name; for every kind above off the
terminator flag.  A reference to a credential that is no longer stored reads
as off. -/
def read_slot (records : List OATH_RECORD) (slot : PassSlot) : List Nat :=
  match slot.kind with
  | SlotKind.off => [PASS_SLOT_OFF]
  | SlotKind.static _ => [PASS_SLOT_STATIC, slot.with_enter]
  | SlotKind.oath name =>
    if (find_record records name).isSome then
      [PASS_SLOT_OATH, name.length] ++ name ++ [slot.with_enter]
    else [PASS_SLOT_OFF]

/-- Modelled from the spec: `pass_read_config` (pass.h:10), both slots in
order. -/
def pass_read_config (e : Engine) : Response :=
  { data := read_slot e.records e.slots.short ++ read_slot e.records e.slots.long,
    sw := SW_NO_ERROR }

/-- PUT on the engine. -/
def engine_put (cfg : Config) (data : List Nat) (e : Engine) : Engine :=
  { e with records := (oath_put cfg data e.records).2 }

/-- DELETE on the engine. -/
def engine_delete (data : List Nat) (e : Engine) : Engine :=
  { e with records := (oath_delete data e.records).2 }

/-- The engine after `n` consecutive gestures of kind `touch_type`. -/
def touch_engine (cfg : Config) (time_step touch_type : Nat) (n : Nat) (e : Engine) : Engine :=
  match n with
  | 0 => e
  | n + 1 =>
    touch_engine cfg time_step touch_type n (pass_handle_touch cfg time_step touch_type e).2.2

/-- The return values and outputs of `n` consecutive gestures of kind
`touch_type`, in order. -/
def touch_outputs (cfg : Config) (time_step touch_type : Nat) (n : Nat) (e : Engine) :
    List (Int × List Nat) :=
  match n with
  | 0 => []
  | n + 1 =>
    ((pass_handle_touch cfg time_step touch_type e).1,
      (pass_handle_touch cfg time_step touch_type e).2.1)
      :: touch_outputs cfg time_step touch_type n
          (pass_handle_touch cfg time_step touch_type e).2.2

/-- The data field of a static-password configuration (test_oath.c:243-247):
kind, length, password bytes, terminator flag. -/
def static_payload (password : List Nat) (with_enter : Nat) : List Nat :=
  [PASS_SLOT_STATIC, password.length % 256] ++ password ++ [with_enter]

/-- The 33 bytes of `static_pass` in test_static_pass (test_oath.c:235-236):
32 characters and the terminating zero. -/
def static_pass : List Nat :=
  ascii "a0aaa0a0a0aaaaa0a0a00a0a0bbabba0" ++ [0]

/-- The payload `data` of test_hotp_touch (test_oath.c:139-142): credential
`H1`, HOTP+SHA1, six digits, no counter. -/
def test_hotp_data : List Nat :=
  [OATH_TAG_NAME, 0x02, 0x48, 0x31, OATH_TAG_KEY, 0x0c, 0x11, 0x06] ++ test_hotp_touch_secret

/-- The payload `data8` of test_hotp_touch (test_oath.c:144-148): credential
`H1n`, HOTP+SHA1, eight digits, counter 2. -/
def test_hotp_data8 : List Nat :=
  [OATH_TAG_NAME, 0x03, 0x48, 0x31, 0x6E, OATH_TAG_KEY, 0x0c, 0x11, 0x08]
    ++ test_hotp_touch_secret ++ [OATH_TAG_COUNTER, 0x04, 0x00, 0x00, 0x00, 0x02]

/-- The engine of test_hotp_touch after `H1` is stored and bound to the
first slot (test_oath.c:160-163). -/
def test_hotp_engine : Engine :=
  (oath_set_default SlotId.SHORT (test_hotp_data.take 4)
    (engine_put testConfig test_hotp_data fresh_engine)).2

/-- The engine of test_hotp_touch after three gestures, the DELETE of `H1`,
and `H1n` stored and bound to the second slot (test_oath.c:165-181). -/
def test_hotp_engine8 : Engine :=
  (oath_set_default SlotId.LONG (test_hotp_data8.take 5)
    (engine_put testConfig test_hotp_data8
      (engine_delete (test_hotp_data.take 4)
        (touch_engine testConfig 0 TOUCH_SHORT 3 test_hotp_engine)))).2

/-! ## Listings and their continuation -/

/-- Modelled from the spec: the tag of a listing entry, `0x72` in the protocol
the firmware implements (`oath.h` is not among the sources). -/
def OATH_TAG_NAME_LIST : Nat := 0x72

/-- Modelled from the spec: the continuation status "more data available".
test_list and test_calc_all assert `0x61FF` for the first response
(test_oath.c:352, 378). -/
def SW_MORE_DATA : Nat := 0x61FF

/-- Modelled from the spec: an entry of the name listing in the format of the
protocol the firmware implements: tag, length, algorithm byte, name. -/
def list_entry (r : OATH_RECORD) : List Nat :=
  [OATH_TAG_NAME_LIST, r.name.length + 1, r.key.getD 0 0] ++ r.name

/-- Modelled from the spec: the entries that fit one response of at most `le`
bytes, taken whole and in order, and the entries left for later. -/
def take_fitting (le : Nat) (entries : List (List Nat)) : List (List Nat) × List (List Nat) :=
  match entries with
  | [] => ([], [])
  | x :: rest =>
    if x.length ≤ le then
      ((x :: (take_fitting (le - x.length) rest).1), (take_fitting (le - x.length) rest).2)
    else ([], x :: rest)

/-- Modelled from the spec: one response of a listing (section 4.3): the
entries that fit the expected length `le`; the status is the continuation
status while entries are left, which are kept for "send remaining", and
success otherwise. -/
def send_listing (le : Nat) (entries : List (List Nat)) (e : Engine) : Response × Engine :=
  ({ data := (take_fitting le entries).1.flatten,
     sw := if (take_fitting le entries).2 = [] then SW_NO_ERROR else SW_MORE_DATA },
    { e with pending := (take_fitting le entries).2 })

/-- Modelled from the spec: LIST (section 4.3) with expected length `le`; the
stored records in store order, each encoded by `entry`. -/
def oath_list (entry : OATH_RECORD → List Nat) (le : Nat) (e : Engine) : Response × Engine :=
  send_listing le (e.records.map entry) e

/-- Modelled from the spec: SEND_REMAINING (section 4.3) with expected length
`le`: the entries the previous response left. -/
def oath_send_remaining (le : Nat) (e : Engine) : Response × Engine :=
  send_listing le e.pending e

/-- Modelled from the spec: the challenge TLV a SELECT with `P2 = 1` carries
(test_calc_all): a missing or cut-off TLV is a length error, a declared length
of zero or above the maximum a data error. -/
def parse_challenge (cfg : Config) (data : List Nat) : Except Nat (List Nat) :=
  match tlv_header data 0 with
  | none => Except.error SW_WRONG_LENGTH
  | some (tag, challenge_len) =>
    if tag ≠ OATH_TAG_CHALLENGE then Except.error SW_WRONG_DATA
    else if challenge_len = 0 ∨ challenge_len > cfg.MAX_CHALLENGE_LEN then
      Except.error SW_WRONG_DATA
    else if 2 + challenge_len > data.length then Except.error SW_WRONG_LENGTH
    else Except.ok (slice data 2 challenge_len)

/-- Modelled from the spec: SELECT with `P2 = 1` and a challenge (section
4.3), the immediate listing, each record encoded by `entry` from the
challenge; same continuation as LIST. -/
def oath_select_list (cfg : Config) (entry : List Nat → OATH_RECORD → List Nat)
    (data : List Nat) (le : Nat) (e : Engine) : Response × Engine :=
  match parse_challenge cfg data with
  | Except.error sw => ({ data := [], sw := sw }, e)
  | Except.ok challenge => send_listing le (e.records.map (entry challenge)) e

/-- The engine test_list and test_calc_all run on: the records of test_put. -/
def test_list_engine : Engine :=
  { fresh_engine with records := test_put_store }

/-- The payload of test_calc_all (test_oath.c:366). -/
def test_calc_all_data : List Nat :=
  [0x74, 0x08, 0x00, 0x00, 0x00, 0x21, 0x06, 0x00, 0x01, 0x03]

end Oath

namespace Fm

/-! ## interfaces/NFC/fm.c: the CRC-8 of the FM11NT configuration -/

/-- One pass of the inner loop of `fm_crc8` (fm.c:209-213): shift right, XOR
`0xb8` in when the low bit was set, keep the low eight bits. -/
def crc8_shift (crc8 : Nat) : Nat :=
  (if crc8 &&& 0x01 = 0x01 then (crc8 >>> 1) ^^^ 0xb8 else crc8 >>> 1) &&& 0xff

/-- The inner loop of `fm_crc8` (fm.c:208-214), `j` passes. -/
def crc8_shifts (j crc8 : Nat) : Nat :=
  match j with
  | 0 => crc8
  | j + 1 => crc8_shifts j (crc8_shift crc8)

/-- Function `fm_crc8` (fm.c:204-217): `data_length` bytes of `data`, read by
index, starting from `0xff`. -/
def fm_crc8 (data : List Nat) (data_length : Nat) : Nat :=
  ((List.range data_length).foldl (fun crc8 i => crc8_shifts 8 (crc8 ^^^ data.getD i 0)) 0xff)
    &&& 0xff

/-- One step of the bitwise reference: a right shift that XORs `0xB8` in when
the low bit is 1. -/
def reference_shift (c : Nat) : Nat :=
  if c % 2 = 1 then (c / 2) ^^^ 0xB8 else c / 2

/-- The bitwise reference CRC-8: initial value `0xFF`, each byte XORed in and
followed by eight reference steps, no final XOR. -/
def crc8_reference (d : List Nat) : Nat :=
  d.foldl (fun c b =>
    reference_shift (reference_shift (reference_shift (reference_shift
      (reference_shift (reference_shift (reference_shift (reference_shift (c ^^^ b))))))))) 0xFF

end Fm

/-! # Theorems -/

namespace Webusb

open BufferOwner

theorem sub32_eq_int (a b : Nat) (ha : a < 2 ^ 32) (hb : b < 2 ^ 32) :
    (sub32 a b : Int) = ((a : Int) - (b : Int)) % 2 ^ 32 := by
  unfold sub32
  rw [Nat.mod_eq_of_lt ha, Nat.mod_eq_of_lt hb]
  have h1 : ((a + 2 ^ 32 - b : Nat) : Int) = (a : Int) - b + 2 ^ 32 := by
    rw [Nat.cast_sub (by omega)]
    push_cast
    ring
  rw [Int.natCast_mod, h1]
  simp

theorem HI_SW_WRONG_LENGTH : HI SW_WRONG_LENGTH = 0x67 := by rfl

theorem LO_SW_WRONG_LENGTH : LO SW_WRONG_LENGTH = 0x00 := by rfl

theorem webusb_loop_timeout_fire {App : Type} (tick : Nat) (s : State App)
    (h : sub32 tick s.last_keepalive > 2000 ∧ s.state = STATE_HOLD_BUF) :
    webusb_loop_timeout tick s =
      { s with
        buffer_owner := release_apdu_buffer BUFFER_OWNER_WEBUSB s.buffer_owner
        calls := s.calls ++ [Call.release_apdu_buffer BUFFER_OWNER_WEBUSB]
        state := STATE_IDLE } := by
  unfold webusb_loop_timeout
  rw [if_pos h]

theorem webusb_loop_timeout_skip {App : Type} (tick : Nat) (s : State App)
    (h : ¬ (sub32 tick s.last_keepalive > 2000 ∧ s.state = STATE_HOLD_BUF)) :
    webusb_loop_timeout tick s = s := by
  unfold webusb_loop_timeout
  rw [if_neg h]

theorem webusb_loop_process_eq {App : Type} (P : Platform App) (tick : Nat) (s : State App)
    (hs : s.state = STATE_PROCESS) :
    webusb_loop P tick s = webusb_loop_serialize (webusb_loop_dispatch P s) := by
  have hne : ¬ (sub32 tick s.last_keepalive > 2000 ∧ s.state = STATE_HOLD_BUF) := by
    rintro ⟨_, h⟩
    rw [hs] at h
    exact absurd h (by decide)
  unfold webusb_loop
  simp only [webusb_loop_timeout_skip tick s hne, hs, ne_eq, not_true_eq_false, if_false]

/-- Claim C1: `webusb_loop` calls `release_apdu_buffer(BUFFER_OWNER_WEBUSB)`
and leaves `state == STATE_IDLE` exactly when it is entered with
`state == STATE_HOLD_BUF` and the 32-bit difference
`device_get_tick() - last_keepalive` exceeds 2000; otherwise, in particular at
a difference of exactly 2000 and in every other state, the time-out branch
changes nothing. -/
theorem webusb_loop_stale_reclaim {App : Type} (P : Platform App) (tick : Nat) (s : State App) :
    ((Call.release_apdu_buffer BUFFER_OWNER_WEBUSB ∈ callsDuring s (webusb_loop P tick s)
        ∧ (webusb_loop P tick s).state = STATE_IDLE
        ∧ (webusb_loop P tick s).buffer_owner
            = release_apdu_buffer BUFFER_OWNER_WEBUSB s.buffer_owner)
      ↔ (s.state = STATE_HOLD_BUF ∧ 2000 < sub32 tick s.last_keepalive))
    ∧ (¬ (s.state = STATE_HOLD_BUF ∧ 2000 < sub32 tick s.last_keepalive) →
        webusb_loop_timeout tick s = s
        ∧ Call.release_apdu_buffer BUFFER_OWNER_WEBUSB ∉ callsDuring s (webusb_loop P tick s))
    ∧ (sub32 tick s.last_keepalive = 2000 → webusb_loop_timeout tick s = s)
    ∧ (s.state ≠ STATE_HOLD_BUF → webusb_loop_timeout tick s = s) := by
  have hskip : ¬ (s.state = STATE_HOLD_BUF ∧ 2000 < sub32 tick s.last_keepalive) →
      webusb_loop_timeout tick s = s
        ∧ Call.release_apdu_buffer BUFFER_OWNER_WEBUSB ∉ callsDuring s (webusb_loop P tick s) := by
    intro hn
    have hn2 : ¬ (sub32 tick s.last_keepalive > 2000 ∧ s.state = STATE_HOLD_BUF) :=
      fun h => hn ⟨h.2, h.1⟩
    refine ⟨webusb_loop_timeout_skip tick s hn2, ?_⟩
    unfold webusb_loop
    simp only [webusb_loop_timeout_skip tick s hn2]
    by_cases hp : s.state = STATE_PROCESS
    · simp only [hp, ne_eq, not_true_eq_false, if_false]
      unfold webusb_loop_serialize webusb_loop_dispatch callsDuring
      by_cases hr : (P.build_capdu s.apdu_cmd s.global_buffer s.apdu_buffer_size).1 < 0
      · simp [hr]
      · simp [hr]
    · simp [hp, callsDuring]
  refine ⟨⟨?_, ?_⟩, hskip, ?_, ?_⟩
  · intro h
    by_contra hn
    exact (hskip hn).2 h.1
  · rintro ⟨hst, hgt⟩
    have hfire := webusb_loop_timeout_fire tick s ⟨hgt, hst⟩
    unfold webusb_loop
    simp only [hfire]
    simp [callsDuring, STATE_IDLE, STATE_PROCESS]
  · intro h
    apply webusb_loop_timeout_skip
    rintro ⟨h1, _⟩
    omega
  · intro h
    apply webusb_loop_timeout_skip
    rintro ⟨_, h2⟩
    exact h h2

/-- Evaluation of C1: parked for 2001 ticks the buffer is released, parked for
exactly 2000 ticks it is kept. -/
theorem webusb_loop_stale_reclaim_witness :
    (Call.release_apdu_buffer BUFFER_OWNER_WEBUSB
        ∈ callsDuring (demoState STATE_HOLD_BUF 0 5 BUFFER_OWNER_WEBUSB)
            (webusb_loop demoPlatform 2006 (demoState STATE_HOLD_BUF 0 5 BUFFER_OWNER_WEBUSB))
      ∧ (webusb_loop demoPlatform 2006 (demoState STATE_HOLD_BUF 0 5 BUFFER_OWNER_WEBUSB)).state
          = STATE_IDLE
      ∧ (webusb_loop demoPlatform 2006
            (demoState STATE_HOLD_BUF 0 5 BUFFER_OWNER_WEBUSB)).buffer_owner
          = BUFFER_OWNER_NONE)
    ∧ webusb_loop_timeout 2005 (demoState STATE_HOLD_BUF 0 5 BUFFER_OWNER_WEBUSB)
        = demoState STATE_HOLD_BUF 0 5 BUFFER_OWNER_WEBUSB :=
  ⟨((webusb_loop_stale_reclaim demoPlatform 2006
        (demoState STATE_HOLD_BUF 0 5 BUFFER_OWNER_WEBUSB)).1).2 ⟨rfl, by decide⟩,
   (webusb_loop_stale_reclaim demoPlatform 2005
        (demoState STATE_HOLD_BUF 0 5 BUFFER_OWNER_WEBUSB)).2.2.1 (by decide)⟩

theorem take_set_set (l : List Nat) (n a b : Nat) (h : n + 2 ≤ l.length) :
    ((l.set n a).set (n + 1) b).take (n + 2) = l.take n ++ [a, b] := by
  apply List.ext_getElem?
  intro i
  simp only [List.getElem?_take, List.getElem?_set, List.getElem?_append, List.length_take,
    List.length_set]
  have hmin : min n l.length = n := by omega
  rw [hmin]
  by_cases h1 : i < n
  · have h2 : ¬ (n + 1 = i) := by omega
    have h3 : ¬ (n = i) := by omega
    have h4 : i < n + 2 := by omega
    simp [h1, h2, h3, h4]
  · by_cases h2 : i = n
    · subst h2
      have : i < l.length := by omega
      simp [this]
    · by_cases h3 : i = n + 1
      · subst h3
        have : n + 1 < l.length := by omega
        simp [this]
      · have h5 : ¬ (i < n + 2) := by omega
        have h6 : ¬ (n + 1 = i) := by omega
        have h7 : ¬ (n = i) := by omega
        have h8 : i - n = (i - n - 2) + 2 := by omega
        simp only [h1, h5, h6, h7, if_false]
        rw [h8]
        simp

theorem webusb_loop_serialize_spec {App : Type} (d : State App)
    (hcap : d.apdu_resp.len + 2 ≤ d.global_buffer.length) :
    (∀ i, i < d.apdu_resp.len →
        (webusb_loop_serialize d).global_buffer[i]? = d.global_buffer[i]?)
    ∧ (webusb_loop_serialize d).global_buffer[d.apdu_resp.len]? = some (HI d.apdu_resp.sw)
    ∧ (webusb_loop_serialize d).global_buffer[d.apdu_resp.len + 1]? = some (LO d.apdu_resp.sw)
    ∧ (webusb_loop_serialize d).global_buffer.take (d.apdu_resp.len + 2)
        = d.global_buffer.take d.apdu_resp.len ++ [HI d.apdu_resp.sw, LO d.apdu_resp.sw]
    ∧ (webusb_loop_serialize d).global_buffer.length = d.global_buffer.length := by
  refine ⟨?_, ?_, ?_, ?_, ?_⟩
  · intro i hi
    show ((d.global_buffer.set _ _).set _ _)[i]? = _
    rw [List.getElem?_set_ne (by omega), List.getElem?_set_ne (by omega)]
  · show ((d.global_buffer.set _ _).set _ _)[d.apdu_resp.len]? = _
    rw [List.getElem?_set_ne (by omega), List.getElem?_set_self (by omega)]
  · show ((d.global_buffer.set _ _).set _ _)[d.apdu_resp.len + 1]? = _
    rw [List.getElem?_set_self (by rw [List.length_set]; omega)]
  · exact take_set_set _ _ _ _ hcap
  · show ((d.global_buffer.set _ _).set _ _).length = _
    rw [List.length_set, List.length_set]

theorem HI_LO_join (sw : Nat) (h : sw < 2 ^ 16) : HI sw * 256 + LO sw = sw := by
  unfold HI LO
  rw [Nat.shiftRight_eq_div_pow]
  have h1 : sw &&& 0xFF = sw % 256 := Nat.and_pow_two_sub_one_eq_mod sw 8
  rw [h1]
  omega

/-- Claim C2: when `build_capdu` fails in `STATE_PROCESS`, `process_apdu` is
not called (the only outgoing call is `build_capdu`, the application state is
untouched and the outcome does not depend on `process_apdu` at all), `LL` is 0,
and the response is the two bytes `0x67 0x00` at offsets 0 and 1 with
`apdu_buffer_size == 2`. -/
theorem webusb_loop_malformed {App : Type} (P : Platform App) (tick : Nat) (s : State App)
    (hs : s.state = STATE_PROCESS)
    (hfail : (P.build_capdu s.apdu_cmd s.global_buffer s.apdu_buffer_size).1 < 0)
    (hcap : 2 ≤ (P.build_capdu s.apdu_cmd s.global_buffer s.apdu_buffer_size).2.2.length) :
    Call.process_apdu ∉ callsDuring s (webusb_loop P tick s)
    ∧ callsDuring s (webusb_loop P tick s) = [Call.build_capdu]
    ∧ (webusb_loop P tick s).app = s.app
    ∧ (∀ f : App → CAPDU → RAPDU → List Nat → App × RAPDU × List Nat,
        webusb_loop { P with process_apdu := f } tick s = webusb_loop P tick s)
    ∧ (webusb_loop P tick s).apdu_resp.len = 0
    ∧ (webusb_loop P tick s).global_buffer[0]? = some 0x67
    ∧ (webusb_loop P tick s).global_buffer[1]? = some 0x00
    ∧ (webusb_loop P tick s).global_buffer.take 2 = [0x67, 0x00]
    ∧ (webusb_loop P tick s).apdu_buffer_size = 2 := by
  have hd : webusb_loop_dispatch P s =
      { s with
        apdu_cmd := (P.build_capdu s.apdu_cmd s.global_buffer s.apdu_buffer_size).2.1
        global_buffer := (P.build_capdu s.apdu_cmd s.global_buffer s.apdu_buffer_size).2.2
        calls := s.calls ++ [Call.build_capdu]
        apdu_resp := { len := 0, sw := SW_WRONG_LENGTH } } := by
    unfold webusb_loop_dispatch
    simp only [hfail, if_true]
  have hind : ∀ f : App → CAPDU → RAPDU → List Nat → App × RAPDU × List Nat,
      webusb_loop { P with process_apdu := f } tick s = webusb_loop P tick s := by
    intro f
    have hd2 : webusb_loop_dispatch { P with process_apdu := f } s = webusb_loop_dispatch P s := by
      rw [hd]
      unfold webusb_loop_dispatch
      simp only [hfail, if_true]
    rw [webusb_loop_process_eq _ tick s hs, webusb_loop_process_eq _ tick s hs, hd2]
  have hser := webusb_loop_serialize_spec (webusb_loop_dispatch P s) (by rw [hd]; exact hcap)
  rw [webusb_loop_process_eq P tick s hs]
  have hlen : (webusb_loop_dispatch P s).apdu_resp.len = 0 := by rw [hd]
  have hsw : (webusb_loop_dispatch P s).apdu_resp.sw = SW_WRONG_LENGTH := by rw [hd]
  rw [hlen, hsw, HI_SW_WRONG_LENGTH, LO_SW_WRONG_LENGTH] at hser
  have hcalls : callsDuring s (webusb_loop_serialize (webusb_loop_dispatch P s))
      = [Call.build_capdu] := by
    rw [hd]
    simp [webusb_loop_serialize, callsDuring]
  refine ⟨?_, hcalls, ?_, ?_, ?_, hser.2.1, hser.2.2.1, ?_, ?_⟩
  · rw [hcalls]
    simp
  · rw [hd]
    rfl
  · intro f
    have h := hind f
    rw [webusb_loop_process_eq P tick s hs] at h
    exact h
  · rw [hd]
    rfl
  · have h := hser.2.2.2.1
    simpa using h
  · show ((webusb_loop_dispatch P s).apdu_resp.len + 2) % 2 ^ 16 = 2
    rw [hlen]
    decide

/-- Evaluation of C2: a three-byte command is rejected by the parser of the
demo platform and answered with `67 00`. -/
theorem webusb_loop_malformed_witness :
    (webusb_loop demoPlatform 0 (demoState STATE_PROCESS 3 0 BUFFER_OWNER_WEBUSB)).app = 0
    ∧ (webusb_loop demoPlatform 0
        (demoState STATE_PROCESS 3 0 BUFFER_OWNER_WEBUSB)).global_buffer.take 2 = [0x67, 0x00]
    ∧ (webusb_loop demoPlatform 0
        (demoState STATE_PROCESS 3 0 BUFFER_OWNER_WEBUSB)).apdu_buffer_size = 2 :=
  have h := webusb_loop_malformed demoPlatform 0 (demoState STATE_PROCESS 3 0 BUFFER_OWNER_WEBUSB)
    rfl (by decide) (by decide)
  ⟨h.2.2.1, h.2.2.2.2.2.2.2.1, h.2.2.2.2.2.2.2.2⟩

/-- Claim C3: after `webusb_loop` has run in `STATE_PROCESS`, with `LL` and
`SW` as left by command processing (either branch of the parse) and `LL + 2`
inside the buffer, the buffer holds the `LL` response bytes unchanged at
offsets `0..LL-1`, `HI(SW)` at offset `LL` and `LO(SW)` at offset `LL + 1`,
`apdu_buffer_size` is `LL + 2` and `state` is `STATE_SENDING_RESP`; the two
status bytes give the status word back. -/
theorem webusb_loop_serialization {App : Type} (P : Platform App) (tick : Nat) (s : State App)
    (hs : s.state = STATE_PROCESS)
    (hcap : (webusb_loop_dispatch P s).apdu_resp.len + 2
        ≤ (webusb_loop_dispatch P s).global_buffer.length)
    (h16 : (webusb_loop_dispatch P s).global_buffer.length < 2 ^ 16) :
    (∀ i, i < (webusb_loop_dispatch P s).apdu_resp.len →
        (webusb_loop P tick s).global_buffer[i]? = (webusb_loop_dispatch P s).global_buffer[i]?)
    ∧ (webusb_loop P tick s).global_buffer[(webusb_loop_dispatch P s).apdu_resp.len]?
        = some (HI (webusb_loop_dispatch P s).apdu_resp.sw)
    ∧ (webusb_loop P tick s).global_buffer[(webusb_loop_dispatch P s).apdu_resp.len + 1]?
        = some (LO (webusb_loop_dispatch P s).apdu_resp.sw)
    ∧ (webusb_loop P tick s).global_buffer.take ((webusb_loop_dispatch P s).apdu_resp.len + 2)
        = (webusb_loop_dispatch P s).global_buffer.take (webusb_loop_dispatch P s).apdu_resp.len
          ++ [HI (webusb_loop_dispatch P s).apdu_resp.sw, LO (webusb_loop_dispatch P s).apdu_resp.sw]
    ∧ (webusb_loop P tick s).apdu_buffer_size = (webusb_loop_dispatch P s).apdu_resp.len + 2
    ∧ (webusb_loop P tick s).state = STATE_SENDING_RESP
    ∧ (webusb_loop P tick s).apdu_resp = (webusb_loop_dispatch P s).apdu_resp
    ∧ ((webusb_loop_dispatch P s).apdu_resp.sw < 2 ^ 16 →
        HI (webusb_loop_dispatch P s).apdu_resp.sw * 256
          + LO (webusb_loop_dispatch P s).apdu_resp.sw = (webusb_loop_dispatch P s).apdu_resp.sw) := by
  have hser := webusb_loop_serialize_spec (webusb_loop_dispatch P s) hcap
  rw [webusb_loop_process_eq P tick s hs]
  refine ⟨hser.1, hser.2.1, hser.2.2.1, hser.2.2.2.1, ?_, rfl, rfl, HI_LO_join _⟩
  show ((webusb_loop_dispatch P s).apdu_resp.len + 2) % 2 ^ 16 = _
  apply Nat.mod_eq_of_lt
  omega

/-- Evaluation of C3: the demo application answers one byte `AB` with status
`0x9000`, serialized as `AB 90 00`. -/
theorem webusb_loop_serialization_witness :
    (webusb_loop demoPlatform 0
        (demoState STATE_PROCESS 4 0 BUFFER_OWNER_WEBUSB)).global_buffer.take 3 = [0xAB, 0x90, 0x00]
    ∧ (webusb_loop demoPlatform 0
        (demoState STATE_PROCESS 4 0 BUFFER_OWNER_WEBUSB)).apdu_buffer_size = 3
    ∧ (webusb_loop demoPlatform 0
        (demoState STATE_PROCESS 4 0 BUFFER_OWNER_WEBUSB)).state = STATE_SENDING_RESP :=
  have h := webusb_loop_serialization demoPlatform 0
    (demoState STATE_PROCESS 4 0 BUFFER_OWNER_WEBUSB) rfl (by decide) (by decide)
  ⟨h.2.2.2.1, h.2.2.2.2.1, h.2.2.2.2.2.1⟩

theorem handle_cmd_wrong_state {App : Type} (P : Platform App) (tick : Nat) (request : Request)
    (s : State App) (hreq : request.bRequest = WEBUSB_REQ_CMD)
    (hst : s.state ≠ STATE_IDLE ∧ s.state ≠ STATE_HOLD_BUF) :
    webusb_handle_interface_request P tick request s
      = (false, { s with last_keepalive := tick % 2 ^ 32 }) := by
  unfold webusb_handle_interface_request
  rw [if_pos hreq, if_pos hst]

theorem handle_cmd_busy {App : Type} (P : Platform App) (tick : Nat) (request : Request)
    (s : State App) (hreq : request.bRequest = WEBUSB_REQ_CMD)
    (hst : ¬ (s.state ≠ STATE_IDLE ∧ s.state ≠ STATE_HOLD_BUF))
    (hbusy : (acquire_apdu_buffer BUFFER_OWNER_WEBUSB s.buffer_owner).1 ≠ 0) :
    webusb_handle_interface_request P tick request s
      = (false,
          { s with
            last_keepalive := tick % 2 ^ 32
            buffer_owner := (acquire_apdu_buffer BUFFER_OWNER_WEBUSB s.buffer_owner).2
            calls := s.calls ++ [Call.acquire_apdu_buffer BUFFER_OWNER_WEBUSB] }) := by
  unfold webusb_handle_interface_request
  rw [if_pos hreq, if_neg hst, if_pos hbusy]

theorem handle_cmd_overflow {App : Type} (P : Platform App) (tick : Nat) (request : Request)
    (s : State App) (hreq : request.bRequest = WEBUSB_REQ_CMD)
    (hst : ¬ (s.state ≠ STATE_IDLE ∧ s.state ≠ STATE_HOLD_BUF))
    (hfree : ¬ (acquire_apdu_buffer BUFFER_OWNER_WEBUSB s.buffer_owner).1 ≠ 0)
    (hlen : request.wLength > P.APDU_BUFFER_SIZE) :
    webusb_handle_interface_request P tick request s
      = (false,
          { s with
            last_keepalive := tick % 2 ^ 32
            buffer_owner := (acquire_apdu_buffer BUFFER_OWNER_WEBUSB s.buffer_owner).2
            calls := s.calls ++ [Call.acquire_apdu_buffer BUFFER_OWNER_WEBUSB]
            state := STATE_HOLD_BUF }) := by
  unfold webusb_handle_interface_request
  rw [if_pos hreq, if_neg hst, if_neg hfree, if_pos hlen]

theorem handle_cmd_accept {App : Type} (P : Platform App) (tick : Nat) (request : Request)
    (s : State App) (hreq : request.bRequest = WEBUSB_REQ_CMD)
    (hst : ¬ (s.state ≠ STATE_IDLE ∧ s.state ≠ STATE_HOLD_BUF))
    (hfree : ¬ (acquire_apdu_buffer BUFFER_OWNER_WEBUSB s.buffer_owner).1 ≠ 0)
    (hlen : ¬ request.wLength > P.APDU_BUFFER_SIZE) :
    webusb_handle_interface_request P tick request s
      = (true,
          { s with
            last_keepalive := tick % 2 ^ 32
            buffer_owner := (acquire_apdu_buffer BUFFER_OWNER_WEBUSB s.buffer_owner).2
            global_buffer := tud_control_xfer_out s.global_buffer request.wLength request.payload
            calls := s.calls ++ [Call.acquire_apdu_buffer BUFFER_OWNER_WEBUSB]
              ++ [Call.tud_control_xfer XferTarget.global_buffer request.wLength]
            apdu_buffer_size := request.wLength
            state := STATE_RECVING }) := by
  unfold webusb_handle_interface_request
  rw [if_pos hreq, if_neg hst, if_neg hfree, if_neg hlen]

theorem handle_resp_sending {App : Type} (P : Platform App) (tick : Nat) (request : Request)
    (s : State App) (hreq : request.bRequest = WEBUSB_REQ_RESP)
    (hst : s.state = STATE_SENDING_RESP) :
    webusb_handle_interface_request P tick request s
      = (true,
          { s with
            last_keepalive := tick % 2 ^ 32
            calls := s.calls
              ++ [Call.tud_control_xfer XferTarget.global_buffer
                    (MIN s.apdu_buffer_size request.wLength)]
            state := STATE_SENT_RESP }) := by
  have h0 : ¬ request.bRequest = WEBUSB_REQ_CMD := by rw [hreq]; decide
  unfold webusb_handle_interface_request
  rw [if_neg h0, if_pos hreq, if_pos hst]

theorem handle_resp_refused {App : Type} (P : Platform App) (tick : Nat) (request : Request)
    (s : State App) (hreq : request.bRequest = WEBUSB_REQ_RESP)
    (hst : ¬ s.state = STATE_SENDING_RESP) :
    webusb_handle_interface_request P tick request s
      = (false, { s with last_keepalive := tick % 2 ^ 32 }) := by
  have h0 : ¬ request.bRequest = WEBUSB_REQ_CMD := by rw [hreq]; decide
  unfold webusb_handle_interface_request
  rw [if_neg h0, if_pos hreq, if_neg hst]

theorem handle_stat {App : Type} (P : Platform App) (tick : Nat) (request : Request)
    (s : State App) (hreq : request.bRequest = WEBUSB_REQ_STAT) :
    webusb_handle_interface_request P tick request s
      = (true,
          { s with
            last_keepalive := tick % 2 ^ 32
            calls := s.calls ++ [Call.tud_control_xfer XferTarget.state_byte 1] }) := by
  have h0 : ¬ request.bRequest = WEBUSB_REQ_CMD := by rw [hreq]; decide
  have h1 : ¬ request.bRequest = WEBUSB_REQ_RESP := by rw [hreq]; decide
  unfold webusb_handle_interface_request
  rw [if_neg h0, if_neg h1, if_pos hreq]

theorem handle_unknown {App : Type} (P : Platform App) (tick : Nat) (request : Request)
    (s : State App) (h0 : ¬ request.bRequest = WEBUSB_REQ_CMD)
    (h1 : ¬ request.bRequest = WEBUSB_REQ_RESP) (h2 : ¬ request.bRequest = WEBUSB_REQ_STAT) :
    webusb_handle_interface_request P tick request s
      = (false, { s with last_keepalive := tick % 2 ^ 32 }) := by
  unfold webusb_handle_interface_request
  rw [if_neg h0, if_neg h1, if_neg h2]

theorem acquire_busy_owner (owner cur : BufferOwner)
    (h : (acquire_apdu_buffer owner cur).1 ≠ 0) : (acquire_apdu_buffer owner cur).2 = cur := by
  unfold acquire_apdu_buffer at h ⊢
  split
  · rename_i hc
    rw [if_pos hc] at h
    exact absurd rfl h
  · rfl

theorem acquire_granted_owner (owner cur : BufferOwner)
    (h : ¬ (acquire_apdu_buffer owner cur).1 ≠ 0) : (acquire_apdu_buffer owner cur).2 = owner := by
  unfold acquire_apdu_buffer at h ⊢
  split
  · rfl
  · rename_i hc
    rw [if_neg hc] at h
    exact absurd (show ((-1 : Int), cur).1 ≠ 0 by simp) h

/-- Claim C4: a `WEBUSB_REQ_CMD` request arriving in a state other than
`STATE_IDLE` and `STATE_HOLD_BUF` is refused without any outgoing call, and
one for which `acquire_apdu_buffer` answers non-zero is refused as well; in
both cases `state`, `apdu_buffer_size`, the buffer and its owner are unchanged
and no transfer is armed.  Whatever the request, `acquire_apdu_buffer` is only
called for a `WEBUSB_REQ_CMD` arriving in `STATE_IDLE` or `STATE_HOLD_BUF`. -/
theorem webusb_cmd_refused {App : Type} (P : Platform App) (tick : Nat) (request : Request)
    (s : State App) :
    (request.bRequest = WEBUSB_REQ_CMD →
      ((s.state ≠ STATE_IDLE ∧ s.state ≠ STATE_HOLD_BUF)
        ∨ (acquire_apdu_buffer BUFFER_OWNER_WEBUSB s.buffer_owner).1 ≠ 0) →
      (webusb_handle_interface_request P tick request s).1 = false
      ∧ (webusb_handle_interface_request P tick request s).2.state = s.state
      ∧ (webusb_handle_interface_request P tick request s).2.apdu_buffer_size = s.apdu_buffer_size
      ∧ (webusb_handle_interface_request P tick request s).2.global_buffer = s.global_buffer
      ∧ (webusb_handle_interface_request P tick request s).2.buffer_owner = s.buffer_owner
      ∧ (∀ target len, Call.tud_control_xfer target len
          ∉ callsDuring s (webusb_handle_interface_request P tick request s).2)
      ∧ ((s.state ≠ STATE_IDLE ∧ s.state ≠ STATE_HOLD_BUF) →
          callsDuring s (webusb_handle_interface_request P tick request s).2 = []))
    ∧ (Call.acquire_apdu_buffer BUFFER_OWNER_WEBUSB
          ∈ callsDuring s (webusb_handle_interface_request P tick request s).2 →
        request.bRequest = WEBUSB_REQ_CMD ∧ (s.state = STATE_IDLE ∨ s.state = STATE_HOLD_BUF)) := by
  constructor
  · intro hreq h
    by_cases hst : s.state ≠ STATE_IDLE ∧ s.state ≠ STATE_HOLD_BUF
    · rw [handle_cmd_wrong_state P tick request s hreq hst]
      refine ⟨rfl, rfl, rfl, rfl, rfl, ?_, ?_⟩
      · intro target len
        simp [callsDuring]
      · intro _
        simp [callsDuring]
    · have hbusy : (acquire_apdu_buffer BUFFER_OWNER_WEBUSB s.buffer_owner).1 ≠ 0 := by
        rcases h with h | h
        · exact absurd h hst
        · exact h
      rw [handle_cmd_busy P tick request s hreq hst hbusy]
      refine ⟨rfl, rfl, rfl, rfl, acquire_busy_owner _ _ hbusy, ?_, ?_⟩
      · intro target len
        simp [callsDuring]
      · intro h2
        exact absurd h2 hst
  · intro hmem
    by_cases hreq : request.bRequest = WEBUSB_REQ_CMD
    · refine ⟨hreq, ?_⟩
      by_contra hst
      have hst2 : s.state ≠ STATE_IDLE ∧ s.state ≠ STATE_HOLD_BUF :=
        ⟨fun h => hst (Or.inl h), fun h => hst (Or.inr h)⟩
      rw [handle_cmd_wrong_state P tick request s hreq hst2] at hmem
      simp [callsDuring] at hmem
    · exfalso
      by_cases h1 : request.bRequest = WEBUSB_REQ_RESP
      · by_cases h2 : s.state = STATE_SENDING_RESP
        · rw [handle_resp_sending P tick request s h1 h2] at hmem
          simp [callsDuring] at hmem
        · rw [handle_resp_refused P tick request s h1 h2] at hmem
          simp [callsDuring] at hmem
      · by_cases h3 : request.bRequest = WEBUSB_REQ_STAT
        · rw [handle_stat P tick request s h3] at hmem
          simp [callsDuring] at hmem
        · rw [handle_unknown P tick request s hreq h1 h3] at hmem
          simp [callsDuring] at hmem

/-- Evaluation of C4: a command sent while a response is being sent, and a
command sent while the CCID transport holds the buffer, are both refused. -/
theorem webusb_cmd_refused_witness :
    (webusb_handle_interface_request demoPlatform 9 ⟨WEBUSB_REQ_CMD, 4, [1, 2, 3, 4]⟩
        (demoState STATE_SENDING_RESP 3 0 BUFFER_OWNER_WEBUSB)).1 = false
    ∧ (webusb_handle_interface_request demoPlatform 9 ⟨WEBUSB_REQ_CMD, 4, [1, 2, 3, 4]⟩
        (demoState STATE_IDLE 3 0 BUFFER_OWNER_CCID)).1 = false
    ∧ (webusb_handle_interface_request demoPlatform 9 ⟨WEBUSB_REQ_CMD, 4, [1, 2, 3, 4]⟩
        (demoState STATE_IDLE 3 0 BUFFER_OWNER_CCID)).2.state = STATE_IDLE :=
  have h1 := (webusb_cmd_refused demoPlatform 9 ⟨WEBUSB_REQ_CMD, 4, [1, 2, 3, 4]⟩
    (demoState STATE_SENDING_RESP 3 0 BUFFER_OWNER_WEBUSB)).1 rfl (Or.inl (by decide))
  have h2 := (webusb_cmd_refused demoPlatform 9 ⟨WEBUSB_REQ_CMD, 4, [1, 2, 3, 4]⟩
    (demoState STATE_IDLE 3 0 BUFFER_OWNER_CCID)).1 rfl (Or.inr (by decide))
  ⟨h1.1, h2.1, h2.2.1⟩

theorem webusb_loop_dispatch_owner {App : Type} (P : Platform App) (s : State App) :
    (webusb_loop_dispatch P s).buffer_owner = s.buffer_owner
    ∧ (webusb_loop_dispatch P s).state = s.state := by
  unfold webusb_loop_dispatch
  by_cases hr : (P.build_capdu s.apdu_cmd s.global_buffer s.apdu_buffer_size).1 < 0
  · simp [hr]
  · simp [hr]

theorem webusb_loop_owned {App : Type} (P : Platform App) (tick : Nat) (s : State App)
    (h : owned s) : owned (webusb_loop P tick s) := by
  by_cases hc : sub32 tick s.last_keepalive > 2000 ∧ s.state = STATE_HOLD_BUF
  · unfold webusb_loop
    rw [webusb_loop_timeout_fire tick s hc]
    intro hne
    exact absurd (by simp [STATE_IDLE, STATE_PROCESS]) hne
  · by_cases hp : s.state = STATE_PROCESS
    · rw [webusb_loop_process_eq P tick s hp]
      intro _
      show (webusb_loop_dispatch P s).buffer_owner = _
      rw [(webusb_loop_dispatch_owner P s).1]
      apply h
      rw [hp]
      decide
    · unfold webusb_loop
      rw [webusb_loop_timeout_skip tick s hc]
      simp only [ne_eq, hp, not_false_eq_true, if_true]
      exact h

theorem webusb_handle_interface_request_owned {App : Type} (P : Platform App) (tick : Nat)
    (request : Request) (s : State App) (h : owned s) :
    owned (webusb_handle_interface_request P tick request s).2 := by
  by_cases h0 : request.bRequest = WEBUSB_REQ_CMD
  · by_cases hst : s.state ≠ STATE_IDLE ∧ s.state ≠ STATE_HOLD_BUF
    · rw [handle_cmd_wrong_state P tick request s h0 hst]
      exact h
    · by_cases hbusy : (acquire_apdu_buffer BUFFER_OWNER_WEBUSB s.buffer_owner).1 ≠ 0
      · rw [handle_cmd_busy P tick request s h0 hst hbusy]
        intro hne
        show (acquire_apdu_buffer BUFFER_OWNER_WEBUSB s.buffer_owner).2 = _
        rw [acquire_busy_owner _ _ hbusy]
        exact h hne
      · by_cases hlen : request.wLength > P.APDU_BUFFER_SIZE
        · rw [handle_cmd_overflow P tick request s h0 hst hbusy hlen]
          intro _
          exact acquire_granted_owner _ _ hbusy
        · rw [handle_cmd_accept P tick request s h0 hst hbusy hlen]
          intro _
          exact acquire_granted_owner _ _ hbusy
  · by_cases h1 : request.bRequest = WEBUSB_REQ_RESP
    · by_cases hst : s.state = STATE_SENDING_RESP
      · rw [handle_resp_sending P tick request s h1 hst]
        intro _
        apply h
        rw [hst]
        decide
      · rw [handle_resp_refused P tick request s h1 hst]
        exact h
    · by_cases h2 : request.bRequest = WEBUSB_REQ_STAT
      · rw [handle_stat P tick request s h2]
        exact h
      · rw [handle_unknown P tick request s h0 h1 h2]
        exact h

theorem step_owned {App : Type} (P : Platform App) (e : Event) (s : State App)
    (h : owned s) (ha : allowed e s) : owned (step P e s) := by
  cases e with
  | loop tick => exact webusb_loop_owned P tick s h
  | request tick request => exact webusb_handle_interface_request_owned P tick request s h
  | RxReady =>
    intro _
    exact h ha
  | TxSent =>
    unfold step USBD_WEBUSB_TxSent
    by_cases hst : s.state = STATE_SENT_RESP
    · simp only [hst, if_true]
      intro _
      apply h
      rw [hst]
      decide
    · simp only [hst, if_false]
      exact h
  | other_acquire owner =>
    intro hne
    have ho := h hne
    show (acquire_apdu_buffer owner s.buffer_owner).2 = _
    have hao : owner ≠ BUFFER_OWNER_WEBUSB := ha
    rw [ho]
    unfold acquire_apdu_buffer
    rw [if_neg]
    rintro (hc | hc)
    · exact absurd hc (by decide)
    · exact hao hc.symm
  | other_release owner =>
    intro hne
    have ho := h hne
    show release_apdu_buffer owner s.buffer_owner = _
    have hao : owner ≠ BUFFER_OWNER_WEBUSB := ha
    rw [ho]
    unfold release_apdu_buffer
    rw [if_neg]
    exact fun hc => hao hc.symm

theorem run_owned {App : Type} (P : Platform App) (es : List Event) :
    ∀ s : State App, owned s → admissible P es s → owned (run P es s) := by
  induction es with
  | nil =>
    intro s h _
    exact h
  | cons e rest ih =>
    intro s h ha
    exact ih (step P e s) (step_owned P e s h ha.1) ha.2

/-- Claim C5, as the code has it: in every state reached from `webusb_init`
by `webusb_loop`, interface requests of any kind, `USBD_WEBUSB_TxSent`,
broker calls of the other transports and `USBD_WEBUSB_RxReady`, the last one
never delivered in `STATE_IDLE`, a state other than `STATE_IDLE` implies that
WebUSB owns the buffer; so it owns it in `STATE_PROCESS`, where `webusb_loop`
parses and overwrites it, and in `STATE_SENDING_RESP`, where a RESP request
transmits from it. -/
theorem webusb_ownership_invariant {App : Type} (P : Platform App) (s0 : State App)
    (es : List Event) (ha : admissible P es (webusb_init s0)) :
    owned (run P es (webusb_init s0))
    ∧ ((run P es (webusb_init s0)).state = STATE_PROCESS →
        (run P es (webusb_init s0)).buffer_owner = BUFFER_OWNER_WEBUSB)
    ∧ ((run P es (webusb_init s0)).state = STATE_SENDING_RESP →
        (run P es (webusb_init s0)).buffer_owner = BUFFER_OWNER_WEBUSB) := by
  have h : owned (run P es (webusb_init s0)) :=
    run_owned P es (webusb_init s0) (fun hne => absurd rfl hne) ha
  refine ⟨h, ?_, ?_⟩
  · intro hst
    apply h
    rw [hst]
    decide
  · intro hst
    apply h
    rw [hst]
    decide

/-- Evaluation of C5: a complete exchange (command, data stage, processing,
response, acknowledgement) on the demo platform ends parked in
`STATE_HOLD_BUF` with WebUSB owning the buffer. -/
theorem webusb_ownership_invariant_witness :
    (run demoPlatform
        [Event.request 1 ⟨WEBUSB_REQ_CMD, 4, [0x00, 0xA4, 0x04, 0x00]⟩, Event.RxReady,
         Event.loop 2, Event.request 3 ⟨WEBUSB_REQ_RESP, 16, []⟩, Event.TxSent]
        (webusb_init (demoState STATE_PROCESS 0 7 BUFFER_OWNER_NONE))).state = STATE_HOLD_BUF
    ∧ owned (run demoPlatform
        [Event.request 1 ⟨WEBUSB_REQ_CMD, 4, [0x00, 0xA4, 0x04, 0x00]⟩, Event.RxReady,
         Event.loop 2, Event.request 3 ⟨WEBUSB_REQ_RESP, 16, []⟩, Event.TxSent]
        (webusb_init (demoState STATE_PROCESS 0 7 BUFFER_OWNER_NONE))) :=
  ⟨by decide,
   (webusb_ownership_invariant demoPlatform (demoState STATE_PROCESS 0 7 BUFFER_OWNER_NONE)
      [Event.request 1 ⟨WEBUSB_REQ_CMD, 4, [0x00, 0xA4, 0x04, 0x00]⟩, Event.RxReady,
       Event.loop 2, Event.request 3 ⟨WEBUSB_REQ_RESP, 16, []⟩, Event.TxSent]
      (by decide)).1⟩

/-- Counterexample to C5 as stated: `USBD_WEBUSB_RxReady` delivered right
after `webusb_init`, while the CCID transport holds the buffer, puts the
transport in `STATE_PROCESS`; the next `webusb_loop` runs the command parser
and the application and overwrites the first bytes of the buffer, and the
owner is still CCID. -/
theorem webusb_ownership_counterexample :
    (run demoPlatform [Event.RxReady]
        (webusb_init (demoState STATE_IDLE 4 0 BUFFER_OWNER_CCID))).state = STATE_PROCESS
    ∧ (run demoPlatform [Event.RxReady]
        (webusb_init (demoState STATE_IDLE 4 0 BUFFER_OWNER_CCID))).buffer_owner
          = BUFFER_OWNER_CCID
    ∧ ¬ owned (run demoPlatform [Event.RxReady]
        (webusb_init (demoState STATE_IDLE 4 0 BUFFER_OWNER_CCID)))
    ∧ (run demoPlatform [Event.RxReady, Event.loop 1]
        (webusb_init (demoState STATE_IDLE 4 0 BUFFER_OWNER_CCID))).global_buffer.take 3
          = [0xAB, 0x90, 0x00]
    ∧ (run demoPlatform [Event.RxReady, Event.loop 1]
        (webusb_init (demoState STATE_IDLE 4 0 BUFFER_OWNER_CCID))).buffer_owner
          = BUFFER_OWNER_CCID
    ∧ (run demoPlatform [Event.RxReady, Event.loop 1]
        (webusb_init (demoState STATE_IDLE 4 0 BUFFER_OWNER_CCID))).state
          = STATE_SENDING_RESP := by
  decide

end Webusb

namespace Webusb

open BufferOwner

/-! ## Oversized commands and the keepalive -/

theorem sub32_mod_right (a b : Nat) : sub32 a (b % 2 ^ 32) = sub32 a b := by
  unfold sub32
  rw [Nat.mod_mod]

theorem callsDuring_append {App : Type} (s t : State App) (extra : List Call)
    (h : t.calls = s.calls ++ extra) : callsDuring s t = extra := by
  unfold callsDuring
  rw [h, List.drop_left]

theorem webusb_loop_calls {App : Type} (P : Platform App) (tick : Nat) (s : State App)
    (h : ¬ (sub32 tick s.last_keepalive > 2000 ∧ s.state = STATE_HOLD_BUF)) :
    Call.release_apdu_buffer BUFFER_OWNER_WEBUSB ∉ callsDuring s (webusb_loop P tick s) := by
  by_cases hp : s.state = STATE_PROCESS
  · rw [webusb_loop_process_eq P tick s hp]
    unfold webusb_loop_serialize webusb_loop_dispatch callsDuring
    by_cases hr : (P.build_capdu s.apdu_cmd s.global_buffer s.apdu_buffer_size).1 < 0
    · simp [hr]
    · simp [hr]
  · unfold webusb_loop
    rw [webusb_loop_timeout_skip tick s h]
    simp [hp, callsDuring]

theorem webusb_loop_parked {App : Type} (P : Platform App) (tick : Nat) (s : State App)
    (hst : s.state = STATE_HOLD_BUF) (h : sub32 tick s.last_keepalive ≤ 2000) :
    webusb_loop P tick s = s := by
  have hn : ¬ (sub32 tick s.last_keepalive > 2000 ∧ s.state = STATE_HOLD_BUF) := by
    rintro ⟨h1, _⟩
    omega
  unfold webusb_loop
  rw [webusb_loop_timeout_skip tick s hn]
  have hp : s.state ≠ STATE_PROCESS := by
    rw [hst]
    decide
  rw [if_pos hp]

theorem webusb_loop_expired {App : Type} (P : Platform App) (tick : Nat) (s : State App)
    (hst : s.state = STATE_HOLD_BUF) (h : sub32 tick s.last_keepalive > 2000) :
    webusb_loop P tick s =
      { s with
        buffer_owner := release_apdu_buffer BUFFER_OWNER_WEBUSB s.buffer_owner
        calls := s.calls ++ [Call.release_apdu_buffer BUFFER_OWNER_WEBUSB]
        state := STATE_IDLE } := by
  unfold webusb_loop
  rw [webusb_loop_timeout_fire tick s ⟨h, hst⟩]
  simp [STATE_IDLE, STATE_PROCESS]

theorem request_calls {App : Type} (P : Platform App) (tick : Nat) (request : Request)
    (s : State App) (owner : BufferOwner) :
    Call.release_apdu_buffer owner
      ∉ callsDuring s (webusb_handle_interface_request P tick request s).2 := by
  by_cases h0 : request.bRequest = WEBUSB_REQ_CMD
  · by_cases hst : s.state ≠ STATE_IDLE ∧ s.state ≠ STATE_HOLD_BUF
    · rw [handle_cmd_wrong_state P tick request s h0 hst]
      simp [callsDuring]
    · by_cases hbusy : (acquire_apdu_buffer BUFFER_OWNER_WEBUSB s.buffer_owner).1 ≠ 0
      · rw [handle_cmd_busy P tick request s h0 hst hbusy]
        simp [callsDuring]
      · by_cases hlen : request.wLength > P.APDU_BUFFER_SIZE
        · rw [handle_cmd_overflow P tick request s h0 hst hbusy hlen]
          simp [callsDuring]
        · rw [handle_cmd_accept P tick request s h0 hst hbusy hlen]
          simp [callsDuring]
  · by_cases h1 : request.bRequest = WEBUSB_REQ_RESP
    · by_cases hst : s.state = STATE_SENDING_RESP
      · rw [handle_resp_sending P tick request s h1 hst]
        simp [callsDuring]
      · rw [handle_resp_refused P tick request s h1 hst]
        simp [callsDuring]
    · by_cases h2 : request.bRequest = WEBUSB_REQ_STAT
      · rw [handle_stat P tick request s h2]
        simp [callsDuring]
      · rw [handle_unknown P tick request s h0 h1 h2]
        simp [callsDuring]

theorem release_only_by_timeout {App : Type} (P : Platform App) (e : Event) (s : State App)
    (h : Call.release_apdu_buffer BUFFER_OWNER_WEBUSB ∈ callsDuring s (step P e s)) :
    ∃ tick, e = Event.loop tick ∧ sub32 tick s.last_keepalive > 2000
      ∧ s.state = STATE_HOLD_BUF := by
  cases e with
  | loop tick =>
    by_cases hc : sub32 tick s.last_keepalive > 2000 ∧ s.state = STATE_HOLD_BUF
    · exact ⟨tick, rfl, hc.1, hc.2⟩
    · exact absurd h (webusb_loop_calls P tick s hc)
  | request tick request => exact absurd h (request_calls P tick request s _)
  | RxReady => simp [step, USBD_WEBUSB_RxReady, callsDuring] at h
  | TxSent =>
    unfold step USBD_WEBUSB_TxSent at h
    by_cases hst : s.state = STATE_SENT_RESP
    · simp [hst, callsDuring] at h
    · simp [hst, callsDuring] at h
  | other_acquire owner => simp [step, callsDuring] at h
  | other_release owner => simp [step, callsDuring] at h

/-- Claim C16: a `WEBUSB_REQ_CMD` with `wLength > APDU_BUFFER_SIZE` arriving
in `STATE_IDLE` or `STATE_HOLD_BUF` while `acquire_apdu_buffer` grants the
buffer is refused, arms no transfer and leaves the buffer and
`apdu_buffer_size` as they were, but leaves the transport in
`STATE_HOLD_BUF` owning the buffer; `webusb_loop` keeps it parked while the
tick difference is at most 2000 and releases it once it exceeds 2000, and no
other event calls `release_apdu_buffer(BUFFER_OWNER_WEBUSB)`. -/
theorem webusb_cmd_oversized {App : Type} (P : Platform App) (tick : Nat) (request : Request)
    (s : State App) (hreq : request.bRequest = WEBUSB_REQ_CMD)
    (hst : s.state = STATE_IDLE ∨ s.state = STATE_HOLD_BUF)
    (hgrant : (acquire_apdu_buffer BUFFER_OWNER_WEBUSB s.buffer_owner).1 = 0)
    (hlen : request.wLength > P.APDU_BUFFER_SIZE) :
    (webusb_handle_interface_request P tick request s).1 = false
    ∧ (webusb_handle_interface_request P tick request s).2.global_buffer = s.global_buffer
    ∧ (∀ target len, Call.tud_control_xfer target len
        ∉ callsDuring s (webusb_handle_interface_request P tick request s).2)
    ∧ (webusb_handle_interface_request P tick request s).2.apdu_buffer_size = s.apdu_buffer_size
    ∧ (webusb_handle_interface_request P tick request s).2.state = STATE_HOLD_BUF
    ∧ (webusb_handle_interface_request P tick request s).2.buffer_owner = BUFFER_OWNER_WEBUSB
    ∧ (∀ t, sub32 t tick ≤ 2000 →
        webusb_loop P t (webusb_handle_interface_request P tick request s).2
          = (webusb_handle_interface_request P tick request s).2)
    ∧ (∀ t, sub32 t tick > 2000 →
        (webusb_loop P t (webusb_handle_interface_request P tick request s).2).state = STATE_IDLE
        ∧ (webusb_loop P t (webusb_handle_interface_request P tick request s).2).buffer_owner
            = BUFFER_OWNER_NONE
        ∧ Call.release_apdu_buffer BUFFER_OWNER_WEBUSB
            ∈ callsDuring (webusb_handle_interface_request P tick request s).2
                (webusb_loop P t (webusb_handle_interface_request P tick request s).2))
    ∧ (∀ e : Event, Call.release_apdu_buffer BUFFER_OWNER_WEBUSB
          ∈ callsDuring (webusb_handle_interface_request P tick request s).2
              (step P e (webusb_handle_interface_request P tick request s).2) →
        ∃ t, e = Event.loop t ∧ sub32 t tick > 2000) := by
  have hst2 : ¬ (s.state ≠ STATE_IDLE ∧ s.state ≠ STATE_HOLD_BUF) := by
    rintro ⟨h1, h2⟩
    rcases hst with h | h
    · exact h1 h
    · exact h2 h
  have hfree : ¬ (acquire_apdu_buffer BUFFER_OWNER_WEBUSB s.buffer_owner).1 ≠ 0 :=
    fun h => h hgrant
  have hown := acquire_granted_owner BUFFER_OWNER_WEBUSB s.buffer_owner hfree
  have hr := handle_cmd_overflow P tick request s hreq hst2 hfree hlen
  have hka : (webusb_handle_interface_request P tick request s).2.last_keepalive
      = tick % 2 ^ 32 := by rw [hr]
  have hhold : (webusb_handle_interface_request P tick request s).2.state = STATE_HOLD_BUF := by
    rw [hr]
  have howner : (webusb_handle_interface_request P tick request s).2.buffer_owner
      = BUFFER_OWNER_WEBUSB := by
    rw [hr]
    exact hown
  refine ⟨by rw [hr], by rw [hr], ?_, by rw [hr], hhold, howner, ?_, ?_, ?_⟩
  · intro target len
    rw [hr]
    simp [callsDuring]
  · intro t ht
    apply webusb_loop_parked P t _ hhold
    rw [hka, sub32_mod_right]
    exact ht
  · intro t ht
    have hexp := webusb_loop_expired P t _ hhold (by rw [hka, sub32_mod_right]; exact ht)
    rw [hexp]
    refine ⟨rfl, ?_, ?_⟩
    · show release_apdu_buffer BUFFER_OWNER_WEBUSB _ = _
      rw [howner]
      rfl
    · simp [callsDuring]
  · intro e he
    obtain ⟨t, het, hgt, _⟩ := release_only_by_timeout P e _ he
    rw [hka, sub32_mod_right] at hgt
    exact ⟨t, het, hgt⟩

/-- Evaluation of C16: on the demo platform (buffer of 16 bytes) a command of
17 bytes arriving in `STATE_IDLE` is refused and leaves the transport parked
in `STATE_HOLD_BUF` owning the buffer. -/
theorem webusb_cmd_oversized_witness :
    (webusb_handle_interface_request demoPlatform 9 ⟨WEBUSB_REQ_CMD, 17, []⟩
        (demoState STATE_IDLE 3 0 BUFFER_OWNER_NONE)).1 = false
    ∧ (webusb_handle_interface_request demoPlatform 9 ⟨WEBUSB_REQ_CMD, 17, []⟩
        (demoState STATE_IDLE 3 0 BUFFER_OWNER_NONE)).2.state = STATE_HOLD_BUF
    ∧ (webusb_handle_interface_request demoPlatform 9 ⟨WEBUSB_REQ_CMD, 17, []⟩
        (demoState STATE_IDLE 3 0 BUFFER_OWNER_NONE)).2.buffer_owner = BUFFER_OWNER_WEBUSB :=
  have h := webusb_cmd_oversized demoPlatform 9 ⟨WEBUSB_REQ_CMD, 17, []⟩
    (demoState STATE_IDLE 3 0 BUFFER_OWNER_NONE) rfl (Or.inl rfl) (by decide) (by decide)
  ⟨h.1, h.2.2.2.2.1, h.2.2.2.2.2.1⟩

theorem request_keepalive {App : Type} (P : Platform App) (tick : Nat) (request : Request)
    (s : State App) :
    (webusb_handle_interface_request P tick request s).2.last_keepalive = tick % 2 ^ 32 := by
  by_cases h0 : request.bRequest = WEBUSB_REQ_CMD
  · by_cases hst : s.state ≠ STATE_IDLE ∧ s.state ≠ STATE_HOLD_BUF
    · rw [handle_cmd_wrong_state P tick request s h0 hst]
    · by_cases hbusy : (acquire_apdu_buffer BUFFER_OWNER_WEBUSB s.buffer_owner).1 ≠ 0
      · rw [handle_cmd_busy P tick request s h0 hst hbusy]
      · by_cases hlen : request.wLength > P.APDU_BUFFER_SIZE
        · rw [handle_cmd_overflow P tick request s h0 hst hbusy hlen]
        · rw [handle_cmd_accept P tick request s h0 hst hbusy hlen]
  · by_cases h1 : request.bRequest = WEBUSB_REQ_RESP
    · by_cases hst : s.state = STATE_SENDING_RESP
      · rw [handle_resp_sending P tick request s h1 hst]
      · rw [handle_resp_refused P tick request s h1 hst]
    · by_cases h2 : request.bRequest = WEBUSB_REQ_STAT
      · rw [handle_stat P tick request s h2]
      · rw [handle_unknown P tick request s h0 h1 h2]

theorem stat_polling_parked {App : Type} (P : Platform App) (polls : List (Nat × Nat))
    (hp : ∀ p ∈ polls, sub32 p.2 p.1 ≤ 2000) :
    ∀ s : State App, s.state = STATE_HOLD_BUF →
      (run P (stat_polling polls) s).state = STATE_HOLD_BUF
      ∧ (run P (stat_polling polls) s).buffer_owner = s.buffer_owner
      ∧ (run P (stat_polling polls) s).global_buffer = s.global_buffer
      ∧ ∃ extra, (run P (stat_polling polls) s).calls = s.calls ++ extra
          ∧ ∀ owner, Call.release_apdu_buffer owner ∉ extra := by
  induction polls with
  | nil =>
    intro s hs
    exact ⟨hs, rfl, rfl, [], by simp [run, stat_polling], by simp⟩
  | cons p rest ih =>
    intro s hs
    have hstat := handle_stat P p.1 { bRequest := WEBUSB_REQ_STAT, wLength := 1, payload := [] }
      s rfl
    have hpar : webusb_loop P p.2
        (webusb_handle_interface_request P p.1
          { bRequest := WEBUSB_REQ_STAT, wLength := 1, payload := [] } s).2
        = (webusb_handle_interface_request P p.1
          { bRequest := WEBUSB_REQ_STAT, wLength := 1, payload := [] } s).2 := by
      apply webusb_loop_parked
      · rw [hstat]
        exact hs
      · rw [request_keepalive, sub32_mod_right]
        exact hp p (List.mem_cons_self p rest)
    have hrun : run P (stat_polling (p :: rest)) s
        = run P (stat_polling rest)
            (webusb_handle_interface_request P p.1
              { bRequest := WEBUSB_REQ_STAT, wLength := 1, payload := [] } s).2 := by
      show run P (_ :: _ :: stat_polling rest) s = _
      unfold run
      rw [List.foldl_cons, List.foldl_cons]
      show List.foldl _ (webusb_loop P p.2
        (webusb_handle_interface_request P p.1
          { bRequest := WEBUSB_REQ_STAT, wLength := 1, payload := [] } s).2) _ = _
      rw [hpar]
    rw [hrun, hstat]
    obtain ⟨h1, h2, h3, extra, h4, h5⟩ := ih (fun q hq => hp q (List.mem_cons_of_mem p hq))
      { s with
        last_keepalive := p.1 % 2 ^ 32
        calls := s.calls ++ [Call.tud_control_xfer XferTarget.state_byte 1] } hs
    refine ⟨h1, h2, h3, Call.tud_control_xfer XferTarget.state_byte 1 :: extra, ?_, ?_⟩
    · rw [h4]
      simp
    · intro owner hmem
      rcases List.mem_cons.1 hmem with h | h
      · exact absurd h (by simp)
      · exact h5 owner h

/-- Claim C17: every interface request, whatever its kind and outcome, stores
the current tick in `last_keepalive`; a later `webusb_loop` at a tick whose
32-bit difference to it is at most 2000 leaves the time-out branch inert,
calls no release, and leaves a transport parked in `STATE_HOLD_BUF` as it is;
and under STAT polling alone, each poll followed by a loop pass within 2000
ticks, a parked buffer stays parked with the same owner and is never
released. -/
theorem keepalive_refresh {App : Type} (P : Platform App) (tick : Nat) (request : Request)
    (s : State App) :
    (webusb_handle_interface_request P tick request s).2.last_keepalive = tick % 2 ^ 32
    ∧ (∀ t, sub32 t tick ≤ 2000 →
        webusb_loop_timeout t (webusb_handle_interface_request P tick request s).2
          = (webusb_handle_interface_request P tick request s).2
        ∧ Call.release_apdu_buffer BUFFER_OWNER_WEBUSB
            ∉ callsDuring (webusb_handle_interface_request P tick request s).2
                (webusb_loop P t (webusb_handle_interface_request P tick request s).2)
        ∧ ((webusb_handle_interface_request P tick request s).2.state = STATE_HOLD_BUF →
            webusb_loop P t (webusb_handle_interface_request P tick request s).2
              = (webusb_handle_interface_request P tick request s).2))
    ∧ (∀ polls : List (Nat × Nat), (∀ p ∈ polls, sub32 p.2 p.1 ≤ 2000) →
        s.state = STATE_HOLD_BUF →
        (run P (stat_polling polls) s).state = STATE_HOLD_BUF
        ∧ (run P (stat_polling polls) s).buffer_owner = s.buffer_owner
        ∧ ∀ owner, Call.release_apdu_buffer owner
            ∉ callsDuring s (run P (stat_polling polls) s)) := by
  refine ⟨request_keepalive P tick request s, ?_, ?_⟩
  · intro t ht
    have hn : ¬ (sub32 t (webusb_handle_interface_request P tick request s).2.last_keepalive > 2000
        ∧ (webusb_handle_interface_request P tick request s).2.state = STATE_HOLD_BUF) := by
      rw [request_keepalive, sub32_mod_right]
      rintro ⟨h1, _⟩
      omega
    refine ⟨webusb_loop_timeout_skip t _ hn, webusb_loop_calls P t _ hn, ?_⟩
    intro hst
    apply webusb_loop_parked P t _ hst
    rw [request_keepalive, sub32_mod_right]
    exact ht
  · intro polls hp hs
    obtain ⟨h1, h2, _, extra, h4, h5⟩ := stat_polling_parked P polls hp s hs
    refine ⟨h1, h2, ?_⟩
    intro owner
    rw [callsDuring_append s _ extra h4]
    exact h5 owner

/-- Evaluation of C17: parked at tick 100, polled with STAT at ticks 2000,
4000 and 6000 with a loop pass 2000 ticks after each poll, the transport is
still parked and owns the buffer at tick 8000, although 7900 ticks have
passed since it was parked. -/
theorem keepalive_refresh_witness :
    (run demoPlatform (stat_polling [(2000, 4000), (4000, 6000), (6000, 8000)])
        (demoState STATE_HOLD_BUF 3 100 BUFFER_OWNER_WEBUSB)).state = STATE_HOLD_BUF
    ∧ (run demoPlatform (stat_polling [(2000, 4000), (4000, 6000), (6000, 8000)])
        (demoState STATE_HOLD_BUF 3 100 BUFFER_OWNER_WEBUSB)).buffer_owner = BUFFER_OWNER_WEBUSB
    ∧ (webusb_loop demoPlatform 8000
        (demoState STATE_HOLD_BUF 3 100 BUFFER_OWNER_WEBUSB)).state = STATE_IDLE :=
  have h := (keepalive_refresh demoPlatform 0 ⟨WEBUSB_REQ_STAT, 1, []⟩
    (demoState STATE_HOLD_BUF 3 100 BUFFER_OWNER_WEBUSB)).2.2
    [(2000, 4000), (4000, 6000), (6000, 8000)] (by decide) rfl
  ⟨h.1, h.2.1, by decide⟩

end Webusb

namespace Oath

set_option maxRecDepth 100000

/-! ## Name uniqueness -/

/-- The status words test_put asserts, in order (test_oath.c:116-134). -/
theorem test_put_statuses :
    run_statuses testConfig test_put_commands []
      = [0x9000, 0x6985, 0x9000, 0x9000, 0x9000, 0x9000, 0x9000, 0x9000, 0x9000, 0x9000,
         0x9000, 0x9000, 0x9000] := by
  decide

/-! ## Dynamic truncation -/

theorem truncation_offset_le (m : List Nat) : truncation_offset m ≤ 15 := by
  unfold truncation_offset
  exact Nat.and_le_right

theorem truncation_offset_last (m : List Nat) :
    truncation_offset m = (m.getLast?.getD 0) &&& 0x0F := by
  unfold truncation_offset
  rw [List.getLast?_eq_getElem?, List.getD_eq_getElem?_getD]

theorem getD_lt_of_forall (m : List Nat) (hb : ∀ b ∈ m, b < 256) (i : Nat) :
    m.getD i 0 < 256 := by
  rw [List.getD_eq_getElem?_getD]
  cases h : m[i]? with
  | none => simp
  | some b =>
    simp only [Option.getD_some]
    exact hb b (List.getElem?_mem h)

theorem slice_four (m : List Nat) (o : Nat) (h : o + 3 < m.length) :
    slice m o 4 = [m.getD o 0, m.getD (o + 1) 0, m.getD (o + 2) 0, m.getD (o + 3) 0] := by
  unfold slice
  apply List.ext_getElem?
  intro i
  rw [List.getElem?_take, List.getElem?_drop]
  simp only [List.getD_eq_getElem?_getD]
  match i with
  | 0 => simp [List.getElem?_eq_getElem (show o < m.length by omega)]
  | 1 => simp [List.getElem?_eq_getElem (show o + 1 < m.length by omega)]
  | 2 => simp [List.getElem?_eq_getElem (show o + 2 < m.length by omega)]
  | 3 => simp [List.getElem?_eq_getElem (show o + 3 < m.length by omega)]
  | i + 4 => simp

theorem be_value_four (a b c d : Nat) :
    be_value [a, b, c, d] = ((a * 256 + b) * 256 + c) * 256 + d := by
  simp [be_value]

theorem zero_padded_length (d n : Nat) : (zero_padded d n).length = d := by
  induction d generalizing n with
  | zero => rfl
  | succ d ih =>
    unfold zero_padded
    rw [List.length_append, ih]
    rfl

theorem zero_padded_digit (d n c : Nat) (h : c ∈ zero_padded d n) : 48 ≤ c ∧ c ≤ 57 := by
  induction d generalizing n with
  | zero =>
    unfold zero_padded at h
    exact absurd h (List.not_mem_nil c)
  | succ d ih =>
    unfold zero_padded at h
    rw [List.mem_append] at h
    rcases h with h | h
    · exact ih _ h
    · rw [List.mem_singleton] at h
      have := Nat.mod_lt n (show 10 > 0 by decide)
      omega

theorem decimal_value_append (l : List Nat) (c : Nat) :
    decimal_value (l ++ [c]) = decimal_value l * 10 + (c - 48) := by
  unfold decimal_value
  rw [List.foldl_append]
  rfl

theorem decimal_value_zero_padded (d n : Nat) : decimal_value (zero_padded d n) = n % 10 ^ d := by
  induction d generalizing n with
  | zero =>
    unfold zero_padded
    simp [decimal_value, Nat.mod_one]
  | succ d ih =>
    unfold zero_padded
    rw [decimal_value_append, ih, Nat.pow_succ', Nat.mod_mul]
    omega

theorem zero_padded_mod (d n : Nat) : zero_padded d (n % 10 ^ d) = zero_padded d n := by
  induction d generalizing n with
  | zero => rfl
  | succ d ih =>
    unfold zero_padded
    have h1 : n % 10 ^ (d + 1) % 10 = n % 10 := by
      rw [pow_succ]
      exact Nat.mod_mul_left_mod n (10 ^ d) 10
    have h2 : n % 10 ^ (d + 1) / 10 = (n / 10) % 10 ^ d := by
      rw [pow_succ, Nat.mul_comm, Nat.mod_mul_right_div_self]
    rw [h1, h2, ih]

theorem zero_padded_drop (k d n : Nat) : (zero_padded (d + k) n).drop k = zero_padded d n := by
  induction d generalizing n with
  | zero =>
    rw [Nat.zero_add]
    apply List.drop_of_length_le
    rw [zero_padded_length]
  | succ d ih =>
    have h : d + 1 + k = (d + k) + 1 := by omega
    rw [h]
    unfold zero_padded
    rw [List.drop_append_of_le_length (by rw [zero_padded_length]; omega), ih]

theorem otp_code_six_of_eight (m : List Nat) : otp_code m 6 = (otp_code m 8).drop 2 := by
  unfold otp_code
  rw [zero_padded_mod, zero_padded_mod]
  exact (zero_padded_drop 2 6 _).symm

/-! ## Increasing-only credentials -/

theorem oath_calculate_refused (cfg : Config) (data : List Nat) (records : List OATH_RECORD)
    (name challenge : List Nat) (r : OATH_RECORD)
    (hp : parse_calculate cfg data = Except.ok (name, challenge))
    (hf : find_record records name = some r)
    (hinc : r.prop &&& OATH_PROP_INC ≠ 0)
    (hlt : be_value challenge < r.challenge) :
    oath_calculate cfg data records
      = ({ data := [], sw := SW_SECURITY_STATUS_NOT_SATISFIED }, records) := by
  unfold oath_calculate oath_calculate_with
  rw [hp]
  simp only
  rw [hf]
  simp only
  rw [if_pos hinc, if_pos (by simp [challenge_refused, hlt])]

theorem oath_calculate_accepted (cfg : Config) (data : List Nat) (records : List OATH_RECORD)
    (name challenge : List Nat) (r : OATH_RECORD)
    (hp : parse_calculate cfg data = Except.ok (name, challenge))
    (hf : find_record records name = some r)
    (hinc : r.prop &&& OATH_PROP_INC ≠ 0)
    (hge : r.challenge ≤ be_value challenge) :
    oath_calculate cfg data records
      = ({ data := calculate_response (cfg.mac (r.key.getD 0 0) (r.key.drop 2) challenge)
              (r.key.getD 1 0),
           sw := SW_NO_ERROR },
          store_challenge records name (be_value challenge)) := by
  unfold oath_calculate oath_calculate_with
  rw [hp]
  simp only
  rw [hf]
  simp only
  rw [if_pos hinc, if_neg (by simp [challenge_refused, hge])]

theorem oath_calculate_plain (cfg : Config) (data : List Nat) (records : List OATH_RECORD)
    (name challenge : List Nat) (r : OATH_RECORD)
    (hp : parse_calculate cfg data = Except.ok (name, challenge))
    (hf : find_record records name = some r)
    (hinc : ¬ r.prop &&& OATH_PROP_INC ≠ 0) :
    oath_calculate cfg data records
      = ({ data := calculate_response (cfg.mac (r.key.getD 0 0) (r.key.drop 2) challenge)
              (r.key.getD 1 0),
           sw := SW_NO_ERROR },
          records) := by
  unfold oath_calculate oath_calculate_with
  rw [hp]
  simp only
  rw [hf]
  simp only
  rw [if_neg hinc]

theorem oath_calculate_refused_unchanged (cfg : Config) (data : List Nat)
    (records : List OATH_RECORD)
    (h : (oath_calculate cfg data records).1.sw = SW_SECURITY_STATUS_NOT_SATISFIED) :
    (oath_calculate cfg data records).2 = records := by
  unfold oath_calculate oath_calculate_with at h ⊢
  cases hp : parse_calculate cfg data with
  | error sw => rfl
  | ok p =>
    obtain ⟨name, challenge⟩ := p
    rw [hp] at h
    simp only at h ⊢
    cases hf : find_record records name with
    | none => rfl
    | some r =>
      rw [hf] at h
      simp only at h ⊢
      by_cases hinc : r.prop &&& OATH_PROP_INC ≠ 0
      · rw [if_pos hinc] at h ⊢
        by_cases hr : challenge_refused r.challenge (be_value challenge) = true
        · rw [if_pos hr]
        · rw [if_neg hr] at h
          exact absurd h (show SW_NO_ERROR ≠ SW_SECURITY_STATUS_NOT_SATISFIED by decide)
      · rw [if_neg hinc]

theorem find_record_store_challenge (records : List OATH_RECORD) (name : List Nat)
    (challenge : Nat) (r : OATH_RECORD) (hf : find_record records name = some r) :
    find_record (store_challenge records name challenge) name
      = some { r with challenge := challenge } := by
  induction records with
  | nil => simp [find_record] at hf
  | cons x rest ih =>
    unfold find_record store_challenge at *
    by_cases hx : x.name = name
    · simp only [List.map_cons, hx, if_true]
      rw [List.find?_cons_of_pos _ (by simp)]
      rw [List.find?_cons_of_pos _ (by simp [hx])] at hf
      cases hf
      subst hx
      rfl
    · simp only [List.map_cons, hx, if_false]
      rw [List.find?_cons_of_neg _ (by simp [hx])]
      rw [List.find?_cons_of_neg _ (by simp [hx])] at hf
      exact ih hf

/-- Claim C9, as the engine has it: for an increasing-only credential with
last accepted value `L`, a CALCULATE whose challenge value is below `L` is
answered `0x6982` and the records are unchanged. -/
theorem increasing_only_refusal (cfg : Config) (data : List Nat) (records : List OATH_RECORD)
    (name challenge : List Nat) (r : OATH_RECORD)
    (hp : parse_calculate cfg data = Except.ok (name, challenge))
    (hf : find_record records name = some r)
    (hinc : r.prop &&& OATH_PROP_INC ≠ 0)
    (hlt : be_value challenge < r.challenge) :
    (oath_calculate cfg data records).1.sw = 0x6982
    ∧ (oath_calculate cfg data records).1.data = []
    ∧ (oath_calculate cfg data records).2 = records := by
  rw [oath_calculate_refused cfg data records name challenge r hp hf hinc hlt]
  exact ⟨rfl, rfl, rfl⟩

/-- Evaluation of C9: with last accepted value 2 on the credential `inc`,
challenge 1 is answered `0x6982` and nothing is stored. -/
theorem increasing_only_refusal_witness :
    (oath_calculate testConfig (test_increasing_data 1)
        (store_challenge test_put_store (ascii "inc") 2)).1.sw = 0x6982
    ∧ (oath_calculate testConfig (test_increasing_data 1)
        (store_challenge test_put_store (ascii "inc") 2)).2
          = store_challenge test_put_store (ascii "inc") 2 :=
  have h := increasing_only_refusal testConfig (test_increasing_data 1)
    (store_challenge test_put_store (ascii "inc") 2) (ascii "inc") [0, 0, 0, 0, 0, 0, 0, 1]
    { name := ascii "inc", key := [0x21, 0x06, 0x00, 0x01, 0x02], prop := 1, challenge := 2 }
    (by rfl) (by decide) (by decide) (by decide)
  ⟨h.1, h.2.2⟩

/-- Counterexample to C9 as stated: after challenge 2 was accepted on the
credential `inc` of test_put, the last accepted value is 2 and a CALCULATE
with challenge 2 again, not strictly greater, is answered `0x9000`; with the
strict check of the spec's wording the sequence of test_increasing_only would
be answered `9000 6982 6982 9000 6982` instead of the asserted
`9000 6982 9000 9000 6982`. -/
theorem increasing_only_strict_counterexample :
    (find_record
        (oath_calculate testConfig (test_increasing_data 2) test_put_store).2
        (ascii "inc")).map (fun r => r.challenge) = some 2
    ∧ be_value [0, 0, 0, 0, 0, 0, 0, 2] = 2
    ∧ (oath_calculate testConfig (test_increasing_data 2)
        (oath_calculate testConfig (test_increasing_data 2) test_put_store).2).1.sw = 0x9000
    ∧ calculate_statuses (oath_calculate_strict testConfig)
        ([2, 1, 2, 3, 2].map test_increasing_data) test_put_store
          = [0x9000, 0x6982, 0x6982, 0x9000, 0x6982]
    ∧ calculate_statuses (oath_calculate testConfig)
        ([2, 1, 2, 3, 2].map test_increasing_data) test_put_store
          = [0x9000, 0x6982, 0x9000, 0x9000, 0x6982] := by
  decide

/-- Claim C10: on the credential `inc` created by test_put, CALCULATE with
the 8-byte challenges 2, 1, 2, 3, 2 is answered success, `0x6982`, success,
success, `0x6982`, the stored baseline being 0, then 2, 2, 2, 3, 3; in
general a command answered `0x6982` leaves the records unchanged, and on an
increasing-only credential a challenge not below the baseline, equal to it
included, is answered success and becomes the baseline. -/
theorem increasing_only_sequence :
    run_statuses testConfig test_increasing_commands test_put_store
      = [0x9000, 0x6982, 0x9000, 0x9000, 0x6982]
    ∧ (List.range 6).map (fun k =>
        (find_record (run_commands testConfig (test_increasing_commands.take k) test_put_store)
          (ascii "inc")).map (fun r => r.challenge))
      = [some 0, some 2, some 2, some 2, some 3, some 3]
    ∧ (∀ (cfg : Config) (data : List Nat) (records : List OATH_RECORD),
        (oath_calculate cfg data records).1.sw = 0x6982 →
        (oath_calculate cfg data records).2 = records)
    ∧ (∀ (cfg : Config) (data : List Nat) (records : List OATH_RECORD)
        (name challenge : List Nat) (r : OATH_RECORD),
        parse_calculate cfg data = Except.ok (name, challenge) →
        find_record records name = some r →
        r.prop &&& OATH_PROP_INC ≠ 0 →
        r.challenge ≤ be_value challenge →
        (oath_calculate cfg data records).1.sw = 0x9000
        ∧ find_record (oath_calculate cfg data records).2 name
            = some { r with challenge := be_value challenge }) := by
  refine ⟨by decide, by decide, ?_, ?_⟩
  · intro cfg data records h
    exact oath_calculate_refused_unchanged cfg data records h
  · intro cfg data records name challenge r hp hf hinc hge
    rw [oath_calculate_accepted cfg data records name challenge r hp hf hinc hge]
    exact ⟨rfl, find_record_store_challenge records name _ r hf⟩

/-- Evaluation of C10: with baseline 2 on `inc`, challenge 2 is accepted and
stays the baseline. -/
theorem increasing_only_sequence_witness :
    (oath_calculate testConfig (test_increasing_data 2)
        (store_challenge test_put_store (ascii "inc") 2)).1.sw = 0x9000
    ∧ find_record (oath_calculate testConfig (test_increasing_data 2)
        (store_challenge test_put_store (ascii "inc") 2)).2 (ascii "inc")
        = some { name := ascii "inc", key := [0x21, 0x06, 0x00, 0x01, 0x02], prop := 1,
                 challenge := 2 } :=
  increasing_only_sequence.2.2.2 testConfig (test_increasing_data 2)
    (store_challenge test_put_store (ascii "inc") 2) (ascii "inc") [0, 0, 0, 0, 0, 0, 0, 2]
    { name := ascii "inc", key := [0x21, 0x06, 0x00, 0x01, 0x02], prop := 1, challenge := 2 }
    (by rfl) (by decide) (by decide) (by decide)

/-! ## Dynamic truncation and the reference vectors -/

/-- Claim C7: for a MAC `m` of at least 20 bytes and `d` in {6, 7, 8}, the
dynamic offset `o` is the last byte AND `0x0F` and `o + 3` is a valid index;
the truncation is the four bytes `m[o..o+3]` with the top bit of the first
cleared, a 31-bit value; the binary response is `76 05 d` followed by these
four bytes; and the decimal code has exactly `d` characters, all decimal
digits, reads as the 31-bit value modulo `10^d`, and the 6-digit code is the
8-digit code without its first two characters. -/
theorem dynamic_truncation (m : List Nat) (d : Nat) (hm : 20 ≤ m.length)
    (hb : ∀ b ∈ m, b < 256) (hd : d = 6 ∨ d = 7 ∨ d = 8) :
    truncation_offset m = (m.getLast?.getD 0) &&& 0x0F
    ∧ truncation_offset m + 3 < m.length
    ∧ (∃ b0 b1 b2 b3, slice m (truncation_offset m) 4 = [b0, b1, b2, b3]
        ∧ dynamic_truncate m = [b0 &&& 0x7F, b1, b2, b3])
    ∧ be_value (dynamic_truncate m) < 2 ^ 31
    ∧ calculate_response m d = [0x76, 5, d] ++ dynamic_truncate m
    ∧ (calculate_response m d).length = 7
    ∧ (otp_code m d).length = d
    ∧ (∀ c ∈ otp_code m d, 48 ≤ c ∧ c ≤ 57)
    ∧ decimal_value (otp_code m d) = be_value (dynamic_truncate m) % 10 ^ d
    ∧ be_value (dynamic_truncate m) % 10 ^ d < 10 ^ d
    ∧ otp_code m 6 = (otp_code m 8).drop 2
    ∧ (∀ (cfg : Config) (data : List Nat) (records : List OATH_RECORD)
        (name challenge : List Nat) (r : OATH_RECORD),
        parse_calculate cfg data = Except.ok (name, challenge) →
        find_record records name = some r →
        ¬ r.prop &&& OATH_PROP_INC ≠ 0 →
        cfg.mac (r.key.getD 0 0) (r.key.drop 2) challenge = m →
        r.key.getD 1 0 = d →
        (oath_calculate cfg data records).1 = { data := calculate_response m d, sw := 0x9000 }) := by
  have ho := truncation_offset_le m
  have hidx : truncation_offset m + 3 < m.length := by omega
  refine ⟨truncation_offset_last m, hidx, ?_, ?_, rfl, rfl, zero_padded_length _ _, ?_, ?_, ?_,
    otp_code_six_of_eight m, ?_⟩
  · exact ⟨_, _, _, _, slice_four m _ hidx, rfl⟩
  · unfold dynamic_truncate
    rw [be_value_four]
    have h0 : m.getD (truncation_offset m) 0 &&& 0x7F ≤ 0x7F := Nat.and_le_right
    have h1 := getD_lt_of_forall m hb (truncation_offset m + 1)
    have h2 := getD_lt_of_forall m hb (truncation_offset m + 2)
    have h3 := getD_lt_of_forall m hb (truncation_offset m + 3)
    omega
  · intro c hc
    exact zero_padded_digit _ _ c hc
  · unfold otp_code
    rw [decimal_value_zero_padded, Nat.mod_mod]
  · apply Nat.mod_lt
    rcases hd with h | h | h <;> subst h <;> decide
  · intro cfg data records name challenge r hp hf hinc hmac hdig
    rw [oath_calculate_plain cfg data records name challenge r hp hf hinc, hmac, hdig]
    rfl

/-- Evaluation of C7 on the MAC quoted in test_calc: offset 10, response
`76 05 06 7F F1 36 BE`, code `514622`. -/
theorem dynamic_truncation_witness :
    truncation_offset test_calc_hmac + 3 < test_calc_hmac.length
    ∧ truncation_offset test_calc_hmac = 10
    ∧ calculate_response test_calc_hmac 6 = [0x76, 0x05, 0x06, 0x7F, 0xF1, 0x36, 0xBE]
    ∧ (otp_code test_calc_hmac 6).length = 6
    ∧ otp_code test_calc_hmac 6 = ascii "514622" :=
  ⟨(dynamic_truncation test_calc_hmac 6 (by decide) (by decide) (Or.inl rfl)).2.1,
   by decide, by decide,
   (dynamic_truncation test_calc_hmac 6 (by decide) (by decide) (Or.inl rfl)).2.2.2.2.2.2.1,
   by decide⟩

/-- The first CALCULATE of test_calc on the store left by test_put, with
HMAC-SHA1 as the keyed MAC: the MAC is the one quoted in the test and the
response is `76 05 06 7F F1 36 BE` with status `0x9000`
(test_oath.c:284-294). -/
theorem test_calc_response :
    hmac_sha1 [0x00, 0x01, 0x02] [0x21, 0x06, 0x00, 0x01, 0x02] = test_calc_hmac
    ∧ (oath_calculate testConfig test_calc_data test_put_store).1
        = { data := [0x76, 0x05, 0x06, 0x7F, 0xF1, 0x36, 0xBE], sw := 0x9000 } := by
  decide

/-- The fourth entry of `codes8` in test_hotp_touch (test_oath.c:152-155),
the code of counter 4 on eight digits, keeps its leading zero. -/
theorem test_hotp_touch_leading_zero :
    hotp_code hmac_sha1 test_hotp_touch_secret 8 4 = ascii "05960129" := by
  decide

/-- Claim C8: the PUT of `rfc4226example` stores the secret
`12345678901234567890` as an HOTP+SHA1 credential of six digits, and with
HMAC-SHA1 the codes of the counters 0 to 9 are 755224, 287082, 359152,
969429, 338314, 254676, 287922, 162583, 399871, 520489, and the code of
counter 10 is 403154. -/
theorem hotp_reference_vector :
    (oath_put testConfig rfc4226example []).2
      = [{ name := ascii ".4226", key := [0x11, 0x06] ++ ascii "12345678901234567890",
           prop := 0, challenge := 0 }]
    ∧ rfc4226_secret = ascii "12345678901234567890"
    ∧ (List.range 10).map (hotp_code (testConfig.mac 0x11) rfc4226_secret 6)
      = [ascii "755224", ascii "287082", ascii "359152", ascii "969429", ascii "338314",
         ascii "254676", ascii "287922", ascii "162583", ascii "399871", ascii "520489"]
    ∧ hotp_code (testConfig.mac 0x11) rfc4226_secret 6 10 = ascii "403154" := by
  decide

end Oath

namespace Oath

set_option maxRecDepth 100000

/-! ## Validation of CALCULATE and PUT -/

theorem tlv_header_none (data : List Nat) (offset : Nat) (h : data.length < offset + 2) :
    tlv_header data offset = none := by
  unfold tlv_header
  rw [if_neg (by omega)]

theorem tlv_header_some (data : List Nat) (offset : Nat) (h : offset + 2 ≤ data.length) :
    tlv_header data offset = some (data.getD offset 0, data.getD (offset + 1) 0) := by
  unfold tlv_header
  rw [if_pos h]

theorem tlv_header_zero (data : List Nat) (h : 2 ≤ data.length) :
    tlv_header data 0 = some (data.getD 0 0, data.getD 1 0) := by
  unfold tlv_header
  rw [if_pos (by omega)]

theorem oath_calculate_error (cfg : Config) (data : List Nat) (records : List OATH_RECORD)
    (sw : Nat) (h : parse_calculate cfg data = Except.error sw) :
    oath_calculate cfg data records = ({ data := [], sw := sw }, records) := by
  unfold oath_calculate oath_calculate_with
  rw [h]

theorem parse_calculate_no_challenge (cfg : Config) (data : List Nat)
    (htag : data.getD 0 0 = OATH_TAG_NAME) (hfit : 2 + data.getD 1 0 ≤ data.length)
    (hcut : data.length < 2 + data.getD 1 0 + 2) :
    parse_calculate cfg data = Except.error SW_WRONG_LENGTH := by
  unfold parse_calculate
  rw [tlv_header_zero data (by omega)]
  simp only [htag, ne_eq, not_true_eq_false, if_false]
  rw [tlv_header_none data _ hcut]

theorem parse_calculate_short_challenge (cfg : Config) (data : List Nat)
    (htag : data.getD 0 0 = OATH_TAG_NAME)
    (hhdr : 2 + data.getD 1 0 + 2 ≤ data.length)
    (hctag : data.getD (2 + data.getD 1 0) 0 = OATH_TAG_CHALLENGE)
    (h1 : 1 ≤ data.getD (2 + data.getD 1 0 + 1) 0)
    (hmax : data.getD (2 + data.getD 1 0 + 1) 0 ≤ cfg.MAX_CHALLENGE_LEN)
    (hcut : data.length < 2 + data.getD 1 0 + 2 + data.getD (2 + data.getD 1 0 + 1) 0) :
    parse_calculate cfg data = Except.error SW_WRONG_LENGTH := by
  unfold parse_calculate
  rw [tlv_header_zero data (by omega)]
  simp only [htag, ne_eq, not_true_eq_false, if_false]
  rw [tlv_header_some data _ hhdr]
  simp only [hctag, not_true_eq_false, if_false]
  rw [if_neg (by omega), if_pos (by omega)]

theorem parse_calculate_bad_challenge (cfg : Config) (data : List Nat)
    (htag : data.getD 0 0 = OATH_TAG_NAME)
    (hhdr : 2 + data.getD 1 0 + 2 ≤ data.length)
    (hctag : data.getD (2 + data.getD 1 0) 0 = OATH_TAG_CHALLENGE)
    (hbad : data.getD (2 + data.getD 1 0 + 1) 0 = 0
      ∨ data.getD (2 + data.getD 1 0 + 1) 0 > cfg.MAX_CHALLENGE_LEN) :
    parse_calculate cfg data = Except.error SW_WRONG_DATA := by
  unfold parse_calculate
  rw [tlv_header_zero data (by omega)]
  simp only [htag, ne_eq, not_true_eq_false, if_false]
  rw [tlv_header_some data _ hhdr]
  simp only [hctag, not_true_eq_false, if_false]
  rw [if_pos hbad]

/-- Claim C11: for a CALCULATE input that starts with a complete name TLV
(name tag, length byte, all name bytes), (a) if fewer than two bytes follow
the name (challenge TLV absent, or its header cut off), or the challenge TLV
declares a length between 1 and `MAX_CHALLENGE_LEN` that exceeds the bytes
supplied, the status is `0x6700`; (b) if the challenge TLV declares length 0
or more than `MAX_CHALLENGE_LEN`, the status is `0x6A80` whatever follows the
length byte; in all these cases the response is empty and the records are
unchanged. -/
theorem calculate_challenge_validation (cfg : Config) (data : List Nat)
    (records : List OATH_RECORD)
    (htag : data.getD 0 0 = OATH_TAG_NAME) (hfit : 2 + data.getD 1 0 ≤ data.length) :
    (data.length < 2 + data.getD 1 0 + 2 →
      oath_calculate cfg data records = ({ data := [], sw := 0x6700 }, records))
    ∧ (2 + data.getD 1 0 + 2 ≤ data.length →
        data.getD (2 + data.getD 1 0) 0 = OATH_TAG_CHALLENGE →
        1 ≤ data.getD (2 + data.getD 1 0 + 1) 0 →
        data.getD (2 + data.getD 1 0 + 1) 0 ≤ cfg.MAX_CHALLENGE_LEN →
        data.length < 2 + data.getD 1 0 + 2 + data.getD (2 + data.getD 1 0 + 1) 0 →
        oath_calculate cfg data records = ({ data := [], sw := 0x6700 }, records))
    ∧ (2 + data.getD 1 0 + 2 ≤ data.length →
        data.getD (2 + data.getD 1 0) 0 = OATH_TAG_CHALLENGE →
        (data.getD (2 + data.getD 1 0 + 1) 0 = 0
          ∨ data.getD (2 + data.getD 1 0 + 1) 0 > cfg.MAX_CHALLENGE_LEN) →
        oath_calculate cfg data records = ({ data := [], sw := 0x6A80 }, records)) := by
  refine ⟨?_, ?_, ?_⟩
  · intro hcut
    exact oath_calculate_error cfg data records _
      (parse_calculate_no_challenge cfg data htag hfit hcut)
  · intro hhdr hctag h1 hmax hcut
    exact oath_calculate_error cfg data records _
      (parse_calculate_short_challenge cfg data htag hhdr hctag h1 hmax hcut)
  · intro hhdr hctag hbad
    exact oath_calculate_error cfg data records _
      (parse_calculate_bad_challenge cfg data htag hhdr hctag hbad)

/-- Evaluation of C11 on the inputs of test_calc (test_oath.c:299-312): the
payload cut to 11 bytes and cut to 5 bytes is answered `0x6700`, the payload
with declared challenge length 0 and 9 is answered `0x6A80`. -/
theorem calculate_challenge_validation_witness :
    oath_calculate testConfig (test_calc_data.take 5) test_put_store
      = ({ data := [], sw := 0x6700 }, test_put_store)
    ∧ oath_calculate testConfig (test_calc_data.take 11) test_put_store
      = ({ data := [], sw := 0x6700 }, test_put_store)
    ∧ oath_calculate testConfig (test_calc_data.set 6 0) test_put_store
      = ({ data := [], sw := 0x6A80 }, test_put_store)
    ∧ oath_calculate testConfig (test_calc_data.set 6 9) test_put_store
      = ({ data := [], sw := 0x6A80 }, test_put_store) :=
  ⟨(calculate_challenge_validation testConfig (test_calc_data.take 5) test_put_store
      (by decide) (by decide)).1 (by decide),
   (calculate_challenge_validation testConfig (test_calc_data.take 11) test_put_store
      (by decide) (by decide)).2.1 (by decide) (by decide) (by decide) (by decide) (by decide),
   (calculate_challenge_validation testConfig (test_calc_data.set 6 0) test_put_store
      (by decide) (by decide)).2.2 (by decide) (by decide) (Or.inl (by decide)),
   (calculate_challenge_validation testConfig (test_calc_data.set 6 9) test_put_store
      (by decide) (by decide)).2.2 (by decide) (by decide) (Or.inr (by decide))⟩

/-- The remaining CALCULATE inputs of test_calc, test_calc_all and
test_regression_fuzz: the name tag alone, the name tag and its length byte
(test_oath.c:301-302, 431-432) are answered `0x6700`; a payload starting with
the challenge tag (test_oath.c:393-398) is answered `0x6A80`. -/
theorem test_calc_statuses :
    (oath_calculate testConfig (test_calc_data.take 1) test_put_store).1.sw = 0x6700
    ∧ (oath_calculate testConfig (test_calc_data.take 2) test_put_store).1.sw = 0x6700
    ∧ (oath_calculate testConfig [0x74, 0, 0, 0, 0, 0x21, 6, 0, 1, 3] test_put_store).1.sw
        = 0x6A80
    ∧ (oath_calculate testConfig [0x74, 9, 0, 0, 0, 0x21, 6, 0, 1, 3] test_put_store).1.sw
        = 0x6A80 := by
  decide

/-- The length of the input is enough fuel: with fuel for the rest of the
input, more fuel reads the same entries. -/
theorem parse_entries_fuel (data : List Nat) :
    ∀ (fuel offset prop : Nat) (counter : Option (List Nat)), data.length ≤ fuel + offset →
      parse_entries data (fuel + 1) offset prop counter
        = parse_entries data fuel offset prop counter := by
  intro fuel
  induction fuel with
  | zero =>
    intro offset prop counter hf
    unfold parse_entries
    rw [if_neg (by omega), if_neg (by omega)]
  | succ fuel ih =>
    intro offset prop counter hf
    conv => lhs; unfold parse_entries
    conv => rhs; unfold parse_entries
    split
    · split
      · exact ih _ _ _ (by omega)
      · rfl
    · split
      · split
        · rfl
        · split
          · rfl
          · exact ih _ _ _ (by omega)
      · rfl

/-- The key-size check behind the layout: a complete key TLV of more than
`MAX_KEY_LEN` bytes with nothing after it is a data error. -/
theorem parse_put_key_size (cfg : Config) (data : List Nat)
    (htag : data.getD 0 0 = OATH_TAG_NAME)
    (hktag : data.getD (2 + data.getD 1 0) 0 = OATH_TAG_KEY)
    (hmax : data.getD (2 + data.getD 1 0 + 1) 0 > cfg.MAX_KEY_LEN)
    (hend : data.length = 2 + data.getD 1 0 + 2 + data.getD (2 + data.getD 1 0 + 1) 0) :
    parse_put cfg data = Except.error SW_WRONG_DATA := by
  have hent : ∀ fuel, parse_entries data fuel
      (2 + data.getD 1 0 + 2 + data.getD (2 + data.getD 1 0 + 1) 0) 0 none
      = Except.ok (0, none) := by
    intro fuel
    cases fuel with
    | zero =>
      unfold parse_entries
      rfl
    | succ n =>
      unfold parse_entries
      rw [if_neg (by omega), if_neg (by omega)]
  unfold parse_put
  rw [tlv_header_zero data (by omega)]
  simp only [htag, ne_eq, not_true_eq_false, if_false]
  rw [tlv_header_some data _ (by omega)]
  simp only [hktag, not_true_eq_false, if_false]
  rw [if_neg (by omega), hent]
  simp only
  rw [if_pos hmax]

/-- The remaining PUT inputs of test_oath.c: an unsupported algorithm byte
(test_put_unsupported_algo) and a counter on a TOTP credential
(test_put_unsupported_counter) are answered `0x6A80`. -/
theorem test_put_data_errors :
    (oath_put testConfig [0x71, 0x01, 0x20, 0x73, 0x03, 0x00, 0x10, 0x00] []).1.sw = 0x6A80
    ∧ (oath_put testConfig
        [0x71, 0x01, 0x20, 0x73, 0x03, 0x21, 0x10, 0x00, 0x7A, 0x04, 0, 0, 0, 0] []).1.sw
        = 0x6A80 := by
  decide

end Oath

namespace Oath

set_option maxRecDepth 100000

/-! ## Touch output -/

theorem get_set_slot (slots : PassSlots) (slot : SlotId) (binding : PassSlot) :
    get_slot (set_slot slots slot binding) slot = binding := by
  cases slot <;> rfl

theorem pass_handle_touch_slot (cfg : Config) (time_step : Nat) (slot : SlotId) (e : Engine) :
    pass_handle_touch cfg time_step slot.touch e =
      match (get_slot e.slots slot).kind with
      | SlotKind.off => (0, [], e)
      | SlotKind.static password =>
        ((password ++ terminator (get_slot e.slots slot).with_enter).length,
          password ++ terminator (get_slot e.slots slot).with_enter, e)
      | SlotKind.oath name =>
        match find_record e.records name with
        | none => (0, [], e)
        | some r =>
          if r.key.getD 0 0 &&& OATH_TYPE_MASK = OATH_TYPE_HOTP then
            ((otp_code (cfg.mac (r.key.getD 0 0) (r.key.drop 2) (be_bytes 8 (r.challenge + 1)))
                (r.key.getD 1 0) ++ terminator (get_slot e.slots slot).with_enter).length,
              otp_code (cfg.mac (r.key.getD 0 0) (r.key.drop 2) (be_bytes 8 (r.challenge + 1)))
                (r.key.getD 1 0) ++ terminator (get_slot e.slots slot).with_enter,
              { e with records := store_challenge e.records name (r.challenge + 1) })
          else
            ((otp_code (cfg.mac (r.key.getD 0 0) (r.key.drop 2) (be_bytes 8 time_step))
                (r.key.getD 1 0) ++ terminator (get_slot e.slots slot).with_enter).length,
              otp_code (cfg.mac (r.key.getD 0 0) (r.key.drop 2) (be_bytes 8 time_step))
                (r.key.getD 1 0) ++ terminator (get_slot e.slots slot).with_enter,
              e) := by
  cases slot with
  | SHORT =>
    unfold pass_handle_touch
    rw [if_neg (by simp [SlotId.touch])]
    simp only [SlotId.touch, if_true, get_slot]
  | LONG =>
    unfold pass_handle_touch
    rw [if_neg (by simp [SlotId.touch])]
    have h : ¬ (TOUCH_LONG = TOUCH_SHORT) := by decide
    simp only [SlotId.touch, h, if_false, get_slot]

theorem pass_handle_touch_static (cfg : Config) (time_step : Nat) (slot : SlotId) (e : Engine)
    (password : List Nat) (with_enter : Nat)
    (h : get_slot e.slots slot = { kind := SlotKind.static password, with_enter := with_enter }) :
    pass_handle_touch cfg time_step slot.touch e
      = ((((password ++ terminator with_enter).length : Nat) : Int),
          password ++ terminator with_enter, e) := by
  rw [pass_handle_touch_slot, h]

theorem static_payload_length (p : List Nat) (f : Nat) :
    (static_payload p f).length = 3 + p.length := by
  simp [static_payload]
  omega

theorem static_payload_slice (p : List Nat) (f : Nat) :
    slice (static_payload p f) 2 p.length = p := by
  simp [static_payload, slice]

theorem static_payload_flag (p : List Nat) (f : Nat) :
    (static_payload p f).getD (2 + p.length) 0 = f := by
  have h : 2 + p.length = p.length + 1 + 1 := by omega
  rw [h]
  simp [static_payload, List.getD_eq_getElem?_getD]

theorem pass_write_config_static (slot : SlotId) (p : List Nat) (f : Nat) (e : Engine)
    (hp : p.length ≤ PASS_MAX_PASSWORD_LENGTH) :
    pass_write_config slot (static_payload p f) e
      = ({ data := [], sw := SW_NO_ERROR },
          { e with
            slots := set_slot e.slots slot { kind := SlotKind.static p, with_enter := f }
            stored_slots := set_slot e.slots slot
              { kind := SlotKind.static p, with_enter := f } }) := by
  have hp32 : p.length ≤ 32 := hp
  have hmod : p.length % 256 = p.length := Nat.mod_eq_of_lt (by omega)
  have h0 : (static_payload p f).getD 0 0 = PASS_SLOT_STATIC := rfl
  have h1 : (static_payload p f).getD 1 0 = p.length := by
    show p.length % 256 = p.length
    exact hmod
  unfold pass_write_config
  rw [if_neg (by rw [static_payload_length]; omega), h0,
    if_neg (by decide : ¬ PASS_SLOT_STATIC = PASS_SLOT_OFF), if_pos rfl,
    if_neg (by rw [static_payload_length]; omega), h1, if_neg (by omega),
    if_neg (by rw [static_payload_length]; simp), static_payload_slice, static_payload_flag]

theorem pass_write_config_long (slot : SlotId) (p : List Nat) (f : Nat) (e : Engine)
    (hp : p.length > PASS_MAX_PASSWORD_LENGTH) :
    pass_write_config slot (static_payload p f) e = ({ data := [], sw := SW_WRONG_LENGTH }, e) := by
  have hp32 : p.length > 32 := hp
  have h0 : (static_payload p f).getD 0 0 = PASS_SLOT_STATIC := rfl
  have h1 : (static_payload p f).getD 1 0 = p.length % 256 := rfl
  unfold pass_write_config
  rw [if_neg (by rw [static_payload_length]; omega), h0,
    if_neg (by decide : ¬ PASS_SLOT_STATIC = PASS_SLOT_OFF), if_pos rfl,
    if_neg (by rw [static_payload_length]; omega), h1]
  by_cases hbig : p.length % 256 > PASS_MAX_PASSWORD_LENGTH
  · rw [if_pos hbig]
  · rw [if_neg hbig, if_pos]
    rw [static_payload_length]
    have hle : p.length % 256 ≤ 32 := Nat.le_of_not_gt hbig
    omega

/-- Claim C13: for either slot, a password `p` of at most 32 bytes and a
terminator flag `f`, `pass_write_config` with (static, `p`, `f`) succeeds, and
the gesture of that slot then returns `length(p)` plus one when `f` is set and
writes `p` followed by `'\r'` only when `f` is set, without changing the
engine; the same holds after `pass_install(0)` on any engine whose stored slot
table is the one just written; a password of more than 32 bytes is answered
`0x6700` and changes nothing. -/
theorem static_password_round_trip (cfg : Config) (time_step : Nat) (slot : SlotId)
    (p : List Nat) (f : Nat) (e : Engine) :
    (p.length ≤ PASS_MAX_PASSWORD_LENGTH →
      (pass_write_config slot (static_payload p f) e).1.sw = 0x9000
      ∧ pass_handle_touch cfg time_step slot.touch (pass_write_config slot (static_payload p f) e).2
          = (((p.length + (if f ≠ 0 then 1 else 0) : Nat) : Int), p ++ (if f ≠ 0 then [13] else []),
              (pass_write_config slot (static_payload p f) e).2)
      ∧ (∀ e2 : Engine,
          e2.stored_slots = (pass_write_config slot (static_payload p f) e).2.stored_slots →
          pass_handle_touch cfg time_step slot.touch (pass_install 0 e2)
            = (((p.length + (if f ≠ 0 then 1 else 0) : Nat) : Int), p ++ (if f ≠ 0 then [13] else []),
                pass_install 0 e2)))
    ∧ (p.length > PASS_MAX_PASSWORD_LENGTH →
        pass_write_config slot (static_payload p f) e = ({ data := [], sw := 0x6700 }, e)) := by
  have hterm : ∀ q : List Nat, (q ++ terminator f).length = q.length + (if f ≠ 0 then 1 else 0)
      ∧ q ++ terminator f = q ++ (if f ≠ 0 then [13] else []) := by
    intro q
    unfold terminator
    by_cases hf : f ≠ 0
    · simp [hf]
    · simp [hf]
  constructor
  · intro hp
    rw [pass_write_config_static slot p f e hp]
    refine ⟨rfl, ?_, ?_⟩
    · rw [pass_handle_touch_static cfg time_step slot _ p f (get_set_slot _ _ _),
        (hterm p).1, (hterm p).2]
    · intro e2 he2
      have hslot : get_slot (pass_install 0 e2).slots slot
          = { kind := SlotKind.static p, with_enter := f } := by
        show get_slot e2.stored_slots slot = _
        rw [he2]
        exact get_set_slot _ _ _
      rw [pass_handle_touch_static cfg time_step slot _ p f hslot, (hterm p).1, (hterm p).2]
  · intro hp
    exact pass_write_config_long slot p f e hp

/-- Evaluation of C13 on test_static_pass: the 33-byte password is answered
`0x6700`; the 32-byte password with the flag set reads back on the long
gesture as 33 characters, the password and `'\r'`, also after
`pass_install(0)`. -/
theorem static_password_round_trip_witness :
    pass_write_config SlotId.LONG (static_payload static_pass 0) fresh_engine
      = ({ data := [], sw := 0x6700 }, fresh_engine)
    ∧ (pass_write_config SlotId.LONG (static_payload (static_pass.take 32) 1) fresh_engine).1.sw
      = 0x9000
    ∧ pass_handle_touch testConfig 0 TOUCH_LONG
        (pass_install 0
          (pass_write_config SlotId.LONG (static_payload (static_pass.take 32) 1) fresh_engine).2)
      = (33, ascii "a0aaa0a0a0aaaaa0a0a00a0a0bbabba0" ++ [13],
          pass_install 0
            (pass_write_config SlotId.LONG (static_payload (static_pass.take 32) 1)
              fresh_engine).2) :=
  ⟨(static_password_round_trip testConfig 0 SlotId.LONG static_pass 0 fresh_engine).2 (by decide),
   ((static_password_round_trip testConfig 0 SlotId.LONG (static_pass.take 32) 1
      fresh_engine).1 (by decide)).1,
   ((static_password_round_trip testConfig 0 SlotId.LONG (static_pass.take 32) 1
      fresh_engine).1 (by decide)).2.2 _ rfl⟩

theorem pass_handle_touch_hotp (cfg : Config) (time_step : Nat) (slot : SlotId) (e : Engine)
    (name : List Nat) (with_enter : Nat) (r : OATH_RECORD)
    (hslot : get_slot e.slots slot = { kind := SlotKind.oath name, with_enter := with_enter })
    (hf : find_record e.records name = some r)
    (hhotp : r.key.getD 0 0 &&& OATH_TYPE_MASK = OATH_TYPE_HOTP) :
    pass_handle_touch cfg time_step slot.touch e
      = ((((otp_code (cfg.mac (r.key.getD 0 0) (r.key.drop 2) (be_bytes 8 (r.challenge + 1)))
              (r.key.getD 1 0) ++ terminator with_enter).length : Nat) : Int),
          otp_code (cfg.mac (r.key.getD 0 0) (r.key.drop 2) (be_bytes 8 (r.challenge + 1)))
            (r.key.getD 1 0) ++ terminator with_enter,
          { e with records := store_challenge e.records name (r.challenge + 1) }) := by
  rw [pass_handle_touch_slot, hslot]
  simp only
  rw [hf]
  simp only
  rw [if_pos hhotp]

theorem pass_handle_touch_dangling (cfg : Config) (time_step : Nat) (slot : SlotId) (e : Engine)
    (name : List Nat)
    (hslot : (get_slot e.slots slot).kind = SlotKind.oath name)
    (hf : find_record e.records name = none) :
    pass_handle_touch cfg time_step slot.touch e = (0, [], e) := by
  rw [pass_handle_touch_slot, hslot]
  simp only
  rw [hf]

theorem pass_handle_touch_off (cfg : Config) (time_step : Nat) (slot : SlotId) (e : Engine)
    (hslot : (get_slot e.slots slot).kind = SlotKind.off) :
    pass_handle_touch cfg time_step slot.touch e = (0, [], e) := by
  rw [pass_handle_touch_slot, hslot]

theorem pass_handle_touch_unknown (cfg : Config) (time_step touch_type : Nat) (e : Engine)
    (h1 : touch_type ≠ TOUCH_SHORT) (h2 : touch_type ≠ TOUCH_LONG) :
    pass_handle_touch cfg time_step touch_type e = (-1, [], e) := by
  unfold pass_handle_touch
  rw [if_pos ⟨h1, h2⟩]

theorem find_record_filter (records : List OATH_RECORD) (name : List Nat) :
    find_record (records.filter (fun r => ¬ (r.name = name))) name = none := by
  unfold find_record
  rw [List.find?_eq_none]
  intro r hr
  have h := (List.mem_filter.1 hr).2
  simpa using h

theorem parse_name_tlv (name rest : List Nat) :
    parse_name ([OATH_TAG_NAME, name.length] ++ name ++ rest) = Except.ok name := by
  unfold parse_name tlv_header
  have hlen : ([OATH_TAG_NAME, name.length] ++ name ++ rest).length
      = 2 + name.length + rest.length := by
    simp
    omega
  rw [if_pos (by rw [hlen]; omega)]
  simp only [List.cons_append, List.nil_append, List.getD_cons_zero, List.getD_cons_succ, ne_eq,
    not_true_eq_false, if_false]
  rw [if_neg (by simp; omega)]
  simp [slice]

theorem touch_engine_hotp (cfg : Config) (time_step : Nat) (slot : SlotId) (name : List Nat)
    (with_enter : Nat) (n : Nat) :
    ∀ (e : Engine) (r : OATH_RECORD),
      get_slot e.slots slot = { kind := SlotKind.oath name, with_enter := with_enter } →
      find_record e.records name = some r →
      r.key.getD 0 0 &&& OATH_TYPE_MASK = OATH_TYPE_HOTP →
      get_slot (touch_engine cfg time_step slot.touch n e).slots slot
        = { kind := SlotKind.oath name, with_enter := with_enter }
      ∧ find_record (touch_engine cfg time_step slot.touch n e).records name
        = some { r with challenge := r.challenge + n } := by
  induction n with
  | zero =>
    intro e r hslot hf _
    exact ⟨hslot, hf⟩
  | succ n ih =>
    intro e r hslot hf hhotp
    unfold touch_engine
    rw [pass_handle_touch_hotp cfg time_step slot e name with_enter r hslot hf hhotp]
    have h := ih { e with records := store_challenge e.records name (r.challenge + 1) }
      { r with challenge := r.challenge + 1 } hslot
      (find_record_store_challenge e.records name _ r hf) hhotp
    refine ⟨h.1, ?_⟩
    rw [h.2]
    have hc : r.challenge + 1 + n = r.challenge + (n + 1) := by omega
    simp only [hc]

/-- Claim C14: for a slot bound to a stored HOTP credential with counter `c`,
after `n` gestures on that slot the stored counter is `c + n`, and the next
gesture, the `(n + 1)`-th, writes the code of counter `c + n + 1` as exactly
digit-count decimal characters (followed by the terminator when the slot's
flag is set), returns the number of characters written and stores `c + n + 1`;
after DELETE of the credential the slot reads back as off and the gesture
returns 0 with empty output; a slot that is off returns 0; and a gesture kind
other than short and long returns `-1`. -/
theorem touch_round_trip (cfg : Config) (time_step : Nat) (slot : SlotId) (e : Engine)
    (name : List Nat) (with_enter : Nat) (r : OATH_RECORD) (n : Nat)
    (hslot : get_slot e.slots slot = { kind := SlotKind.oath name, with_enter := with_enter })
    (hf : find_record e.records name = some r)
    (hhotp : r.key.getD 0 0 &&& OATH_TYPE_MASK = OATH_TYPE_HOTP) :
    find_record (touch_engine cfg time_step slot.touch n e).records name
        = some { r with challenge := r.challenge + n }
    ∧ (pass_handle_touch cfg time_step slot.touch
          (touch_engine cfg time_step slot.touch n e)).2.1
        = otp_code (cfg.mac (r.key.getD 0 0) (r.key.drop 2) (be_bytes 8 (r.challenge + n + 1)))
            (r.key.getD 1 0) ++ terminator with_enter
    ∧ (pass_handle_touch cfg time_step slot.touch
          (touch_engine cfg time_step slot.touch n e)).1
        = ((r.key.getD 1 0 + (terminator with_enter).length : Nat) : Int)
    ∧ (otp_code (cfg.mac (r.key.getD 0 0) (r.key.drop 2) (be_bytes 8 (r.challenge + n + 1)))
          (r.key.getD 1 0)).length = r.key.getD 1 0
    ∧ (∀ c ∈ otp_code (cfg.mac (r.key.getD 0 0) (r.key.drop 2)
          (be_bytes 8 (r.challenge + n + 1))) (r.key.getD 1 0), 48 ≤ c ∧ c ≤ 57)
    ∧ find_record (pass_handle_touch cfg time_step slot.touch
          (touch_engine cfg time_step slot.touch n e)).2.2.records name
        = some { r with challenge := r.challenge + n + 1 }
    ∧ (∀ rest : List Nat,
        read_slot
          (engine_delete ([OATH_TAG_NAME, name.length] ++ name ++ rest)
            (touch_engine cfg time_step slot.touch n e)).records
          (get_slot (engine_delete ([OATH_TAG_NAME, name.length] ++ name ++ rest)
            (touch_engine cfg time_step slot.touch n e)).slots slot) = [PASS_SLOT_OFF]
        ∧ pass_handle_touch cfg time_step slot.touch
            (engine_delete ([OATH_TAG_NAME, name.length] ++ name ++ rest)
              (touch_engine cfg time_step slot.touch n e))
          = (0, [], engine_delete ([OATH_TAG_NAME, name.length] ++ name ++ rest)
              (touch_engine cfg time_step slot.touch n e)))
    ∧ (∀ e2 : Engine, (get_slot e2.slots slot).kind = SlotKind.off →
        pass_handle_touch cfg time_step slot.touch e2 = (0, [], e2))
    ∧ (∀ (e2 : Engine) (touch_type : Nat), touch_type ≠ TOUCH_SHORT → touch_type ≠ TOUCH_LONG →
        pass_handle_touch cfg time_step touch_type e2 = (-1, [], e2)) := by
  obtain ⟨hs, hfn⟩ := touch_engine_hotp cfg time_step slot name with_enter n e r hslot hf hhotp
  have hstep := pass_handle_touch_hotp cfg time_step slot
    (touch_engine cfg time_step slot.touch n e) name with_enter
    { r with challenge := r.challenge + n } hs hfn hhotp
  refine ⟨hfn, ?_, ?_, zero_padded_length _ _, ?_, ?_, ?_, ?_, ?_⟩
  · rw [hstep]
  · rw [hstep]
    show ((_ : Nat) : Int) = _
    rw [List.length_append]
    unfold otp_code
    rw [zero_padded_length]
  · intro c hc
    exact zero_padded_digit _ _ c hc
  · rw [hstep]
    exact find_record_store_challenge _ name _ { r with challenge := r.challenge + n } hfn
  · intro rest
    have hdel : (engine_delete ([OATH_TAG_NAME, name.length] ++ name ++ rest)
        (touch_engine cfg time_step slot.touch n e)).records
        = (touch_engine cfg time_step slot.touch n e).records.filter
            (fun x => ¬ (x.name = name)) := by
      unfold engine_delete oath_delete
      rw [parse_name_tlv]
    have hnone := find_record_filter (touch_engine cfg time_step slot.touch n e).records name
    have hslot2 : get_slot (engine_delete ([OATH_TAG_NAME, name.length] ++ name ++ rest)
        (touch_engine cfg time_step slot.touch n e)).slots slot
        = { kind := SlotKind.oath name, with_enter := with_enter } := hs
    constructor
    · rw [hslot2, hdel]
      unfold read_slot
      simp only
      rw [hnone]
      rfl
    · apply pass_handle_touch_dangling cfg time_step slot _ name
      · rw [hslot2]
      · rw [hdel]
        exact hnone
  · intro e2 hoff
    exact pass_handle_touch_off cfg time_step slot e2 hoff
  · intro e2 touch_type h1 h2
    exact pass_handle_touch_unknown cfg time_step touch_type e2 h1 h2

/-- Evaluation of C14 on test_hotp_touch: with `H1` bound to the first slot
and two gestures made, the third gesture writes `143627`, the code of
counter 3, and returns 6. -/
theorem touch_round_trip_witness :
    (pass_handle_touch testConfig 0 TOUCH_SHORT
        (touch_engine testConfig 0 TOUCH_SHORT 2 test_hotp_engine)).2.1 = ascii "143627"
    ∧ (pass_handle_touch testConfig 0 TOUCH_SHORT
        (touch_engine testConfig 0 TOUCH_SHORT 2 test_hotp_engine)).1 = 6 :=
  have h := touch_round_trip testConfig 0 SlotId.SHORT test_hotp_engine [0x48, 0x31] 0
    { name := [0x48, 0x31], key := [0x11, 0x06] ++ test_hotp_touch_secret, prop := 0,
      challenge := 0 } 2 (by decide) (by decide) (by decide)
  ⟨h.2.1.trans (by decide), h.2.2.1⟩

/-- The gestures of test_hotp_touch (test_oath.c:160-195): three gestures on
`H1` give `996554`, `602287`, `143627`; after the DELETE both slots read as
off and the gesture returns 0; four gestures on `H1n`, created with counter
2, give the codes of counters 3 to 6; the short gesture, whose slot still
names the deleted `H1`, returns 0; gesture kind 199 returns `-1`. -/
theorem test_hotp_touch_replay :
    touch_outputs testConfig 0 TOUCH_SHORT 3 test_hotp_engine
      = [(6, ascii "996554"), (6, ascii "602287"), (6, ascii "143627")]
    ∧ (pass_read_config test_hotp_engine).data = [PASS_SLOT_OATH, 2, 0x48, 0x31, 0, PASS_SLOT_OFF]
    ∧ (pass_read_config (engine_delete (test_hotp_data.take 4)
        (touch_engine testConfig 0 TOUCH_SHORT 3 test_hotp_engine))).data
      = [PASS_SLOT_OFF, PASS_SLOT_OFF]
    ∧ (pass_handle_touch testConfig 0 TOUCH_SHORT (engine_delete (test_hotp_data.take 4)
        (touch_engine testConfig 0 TOUCH_SHORT 3 test_hotp_engine))).1 = 0
    ∧ touch_outputs testConfig 0 TOUCH_LONG 4 test_hotp_engine8
      = [(8, ascii "91143627"), (8, ascii "05960129"), (8, ascii "38768897"),
         (8, ascii "68883951")]
    ∧ (pass_handle_touch testConfig 0 TOUCH_SHORT test_hotp_engine8).1 = 0
    ∧ (pass_handle_touch testConfig 0 199 test_hotp_engine8).1 = -1 := by
  decide

end Oath

namespace Oath

set_option maxRecDepth 100000

/-! ## Listing pagination -/

theorem take_fitting_append (le : Nat) (entries : List (List Nat)) :
    (take_fitting le entries).1 ++ (take_fitting le entries).2 = entries := by
  induction entries generalizing le with
  | nil => rfl
  | cons x rest ih =>
    unfold take_fitting
    by_cases h : x.length ≤ le
    · rw [if_pos h]
      simp only [List.cons_append]
      rw [ih]
    · rw [if_neg h]
      rfl

theorem take_fitting_fits (le : Nat) (entries : List (List Nat)) :
    (take_fitting le entries).1.flatten.length ≤ le := by
  induction entries generalizing le with
  | nil => simp [take_fitting]
  | cons x rest ih =>
    unfold take_fitting
    by_cases h : x.length ≤ le
    · rw [if_pos h]
      simp only [List.flatten_cons, List.length_append]
      have := ih (le - x.length)
      omega
    · rw [if_neg h]
      simp

theorem take_fitting_all (le : Nat) (entries : List (List Nat))
    (h : entries.flatten.length ≤ le) : take_fitting le entries = (entries, []) := by
  induction entries generalizing le with
  | nil => rfl
  | cons x rest ih =>
    simp only [List.flatten_cons, List.length_append] at h
    unfold take_fitting
    rw [if_pos (by omega), ih (le - x.length) (by omega)]

theorem take_fitting_rest (le : Nat) (entries : List (List Nat))
    (h : entries.flatten.length > le) : (take_fitting le entries).2 ≠ [] := by
  intro hnil
  have happ := take_fitting_append le entries
  rw [hnil, List.append_nil] at happ
  have hfit := take_fitting_fits le entries
  rw [happ] at hfit
  omega

theorem send_listing_pagination (le le2 : Nat) (entries : List (List Nat)) (e : Engine)
    (hlong : entries.flatten.length > le)
    (hrest : (send_listing le entries e).2.pending.flatten.length ≤ le2) :
    (send_listing le entries e).1.sw = SW_MORE_DATA
    ∧ (send_listing le entries e).1.data.length ≤ le
    ∧ (send_listing le entries e).2.records = e.records
    ∧ (oath_send_remaining le2 (send_listing le entries e).2).1.sw = SW_NO_ERROR
    ∧ (send_listing le entries e).1.data
        ++ (oath_send_remaining le2 (send_listing le entries e).2).1.data = entries.flatten
    ∧ (oath_send_remaining le2 (send_listing le entries e).2).2.pending = [] := by
  have hall := take_fitting_all le2 (take_fitting le entries).2 hrest
  refine ⟨?_, take_fitting_fits le entries, rfl, ?_, ?_, ?_⟩
  · show (if (take_fitting le entries).2 = [] then SW_NO_ERROR else SW_MORE_DATA) = _
    rw [if_neg (take_fitting_rest le entries hlong)]
  · show (if (take_fitting le2 (take_fitting le entries).2).2 = [] then SW_NO_ERROR
      else SW_MORE_DATA) = _
    rw [hall, if_pos rfl]
  · show (take_fitting le entries).1.flatten
      ++ (take_fitting le2 (take_fitting le entries).2).1.flatten = _
    rw [hall, ← List.flatten_append, take_fitting_append]
  · show (take_fitting le2 (take_fitting le entries).2).2 = []
    rw [hall]

/-- Claim C15, as the engine has it: when the full listing of LIST, or of a
SELECT with `P2 = 1` and a well-formed challenge, is longer than the expected
length `Le`, the first response has at most `Le` bytes and status `0x61FF`;
a SEND_REMAINING whose expected length covers the bytes left returns `0x9000`
with them, and the two bodies concatenated are the full listing; no record is
changed. -/
theorem listing_pagination (cfg : Config) (le le2 : Nat) (e : Engine) :
    (∀ entry : OATH_RECORD → List Nat,
      (e.records.map entry).flatten.length > le →
      (oath_list entry le e).2.pending.flatten.length ≤ le2 →
      (oath_list entry le e).1.sw = 0x61FF
      ∧ (oath_list entry le e).1.data.length ≤ le
      ∧ (oath_list entry le e).2.records = e.records
      ∧ (oath_send_remaining le2 (oath_list entry le e).2).1.sw = 0x9000
      ∧ (oath_list entry le e).1.data
          ++ (oath_send_remaining le2 (oath_list entry le e).2).1.data
          = (e.records.map entry).flatten)
    ∧ (∀ (entry : List Nat → OATH_RECORD → List Nat) (data challenge : List Nat),
        parse_challenge cfg data = Except.ok challenge →
        (e.records.map (entry challenge)).flatten.length > le →
        (oath_select_list cfg entry data le e).2.pending.flatten.length ≤ le2 →
        (oath_select_list cfg entry data le e).1.sw = 0x61FF
        ∧ (oath_select_list cfg entry data le e).1.data.length ≤ le
        ∧ (oath_select_list cfg entry data le e).2.records = e.records
        ∧ (oath_send_remaining le2 (oath_select_list cfg entry data le e).2).1.sw = 0x9000
        ∧ (oath_select_list cfg entry data le e).1.data
            ++ (oath_send_remaining le2 (oath_select_list cfg entry data le e).2).1.data
            = (e.records.map (entry challenge)).flatten) := by
  constructor
  · intro entry hlong hrest
    have h := send_listing_pagination le le2 (e.records.map entry) e hlong hrest
    exact ⟨h.1, h.2.1, h.2.2.1, h.2.2.2.1, h.2.2.2.2.1⟩
  · intro entry data challenge hp hlong hrest
    have heq : oath_select_list cfg entry data le e
        = send_listing le (e.records.map (entry challenge)) e := by
      unfold oath_select_list
      rw [hp]
    rw [heq] at hrest ⊢
    have h := send_listing_pagination le le2 (e.records.map (entry challenge)) e hlong hrest
    exact ⟨h.1, h.2.1, h.2.2.1, h.2.2.2.1, h.2.2.2.2.1⟩

/-- Evaluation of C15 on test_list: the twelve names of test_put listed with
`Le = 64` give `0x61FF` and SEND_REMAINING with `Le = 0xFF` gives `0x9000`,
the two bodies making up the 72 bytes of the listing. -/
theorem listing_pagination_witness :
    (test_list_engine.records.map list_entry).flatten.length = 72
    ∧ (oath_list list_entry 64 test_list_engine).1.sw = 0x61FF
    ∧ (oath_send_remaining 0xFF (oath_list list_entry 64 test_list_engine).2).1.sw = 0x9000
    ∧ (oath_list list_entry 64 test_list_engine).1.data
        ++ (oath_send_remaining 0xFF (oath_list list_entry 64 test_list_engine).2).1.data
        = (test_list_engine.records.map list_entry).flatten :=
  have h := (listing_pagination testConfig 64 0xFF test_list_engine).1 list_entry
    (by decide) (by decide)
  ⟨by decide, h.1, h.2.2.2.1, h.2.2.2.2⟩

/-- Counterexample to C15 as stated: on the twelve names of test_put listed
with `Le = 64`, the first response has 60 bytes and status `0x61FF`, the
status test_list asserts, while 12 bytes of the listing are not yet returned:
the low status byte is `0xFF`, not the number of bytes left. -/
theorem listing_pagination_counterexample :
    (oath_list list_entry 64 test_list_engine).1.sw = 0x61FF
    ∧ (oath_list list_entry 64 test_list_engine).1.data.length = 60
    ∧ (oath_list list_entry 64 test_list_engine).2.pending.flatten.length = 12
    ∧ (oath_list list_entry 64 test_list_engine).1.sw % 256
        ≠ (oath_list list_entry 64 test_list_engine).2.pending.flatten.length := by
  decide

/-- The statuses test_calc_all asserts (test_oath.c:371-391): the SELECT with
`P2 = 1` and a challenge gives `0x61FF`, the SEND_REMAINING `0x9000`, and the
payload cut to 9, 1 and 2 bytes `0x6700`. -/
theorem test_calc_all_statuses :
    (oath_select_list testConfig (fun _ => list_entry) test_calc_all_data 64
        test_list_engine).1.sw = 0x61FF
    ∧ (oath_send_remaining 0xFF
        (oath_select_list testConfig (fun _ => list_entry) test_calc_all_data 64
          test_list_engine).2).1.sw = 0x9000
    ∧ (oath_select_list testConfig (fun _ => list_entry) (test_calc_all_data.take 9) 64
        test_list_engine).1.sw = 0x6700
    ∧ (oath_select_list testConfig (fun _ => list_entry) (test_calc_all_data.take 1) 64
        test_list_engine).1.sw = 0x6700
    ∧ (oath_select_list testConfig (fun _ => list_entry) (test_calc_all_data.take 2) 64
        test_list_engine).1.sw = 0x6700 := by
  decide

end Oath

namespace Fm

set_option maxRecDepth 100000

/-! ## CRC-8 -/

theorem crc8_shift_byte : ∀ c, c < 256 →
    crc8_shift c = reference_shift c ∧ crc8_shift c < 256 := by
  decide

theorem crc8_shifts_byte (j c : Nat) (h : c < 256) : crc8_shifts j c < 256 := by
  induction j generalizing c with
  | zero => exact h
  | succ j ih =>
    unfold crc8_shifts
    exact ih _ (crc8_shift_byte c h).2

theorem crc8_shifts_eight (c : Nat) (h : c < 256) :
    crc8_shifts 8 c = reference_shift (reference_shift (reference_shift (reference_shift
      (reference_shift (reference_shift (reference_shift (reference_shift c))))))) := by
  have h1 := crc8_shift_byte c h
  have h2 := crc8_shift_byte _ h1.2
  have h3 := crc8_shift_byte _ h2.2
  have h4 := crc8_shift_byte _ h3.2
  have h5 := crc8_shift_byte _ h4.2
  have h6 := crc8_shift_byte _ h5.2
  have h7 := crc8_shift_byte _ h6.2
  have h8 := crc8_shift_byte _ h7.2
  simp only [crc8_shifts]
  rw [h8.1, h7.1, h6.1, h5.1, h4.1, h3.1, h2.1, h1.1]

theorem crc8_shifts_zero : crc8_shifts 8 0 = 0 := by decide

theorem foldl_range_congr (f : Nat → Nat → Nat) (g h : Nat → Nat) (n : Nat)
    (hgh : ∀ i, i < n → g i = h i) (init : Nat) :
    (List.range n).foldl (fun c i => f c (g i)) init
      = (List.range n).foldl (fun c i => f c (h i)) init := by
  induction n with
  | zero => rfl
  | succ n ih =>
    rw [List.range_succ, List.foldl_append, List.foldl_append,
      ih (fun i hi => hgh i (Nat.lt_succ_of_lt hi))]
    simp only [List.foldl_cons, List.foldl_nil]
    rw [hgh n (Nat.lt_succ_self n)]

theorem foldl_range_getD (f : Nat → Nat → Nat) (l : List Nat) (init : Nat) :
    (List.range l.length).foldl (fun c i => f c (l.getD i 0)) init = l.foldl f init := by
  induction l using List.reverseRecOn with
  | nil => rfl
  | append_singleton l a ih =>
    rw [List.length_append, List.length_singleton, List.range_succ, List.foldl_append,
      List.foldl_append]
    simp only [List.foldl_cons, List.foldl_nil]
    have h1 : (List.range l.length).foldl (fun c i => f c ((l ++ [a]).getD i 0)) init
        = (List.range l.length).foldl (fun c i => f c (l.getD i 0)) init := by
      apply foldl_range_congr
      intro i hi
      rw [List.getD_eq_getElem?_getD, List.getD_eq_getElem?_getD, List.getElem?_append_left hi]
    have h2 : (l ++ [a]).getD l.length 0 = a := by
      rw [List.getD_eq_getElem?_getD, List.getElem?_append_right (Nat.le_refl _)]
      simp
    rw [h1, ih, h2]

theorem crc8_fold_byte (d : List Nat) (hb : ∀ b ∈ d, b < 256) (init : Nat) (hi : init < 256) :
    d.foldl (fun crc8 b => crc8_shifts 8 (crc8 ^^^ b)) init < 256 := by
  induction d generalizing init with
  | nil => exact hi
  | cons b rest ih =>
    rw [List.foldl_cons]
    apply ih (fun x hx => hb x (List.mem_cons_of_mem b hx))
    apply crc8_shifts_byte
    exact Nat.xor_lt_two_pow (n := 8) hi (hb b (List.mem_cons_self b rest))

theorem crc8_fold_reference (d : List Nat) (hb : ∀ b ∈ d, b < 256) (init : Nat)
    (hi : init < 256) :
    d.foldl (fun crc8 b => crc8_shifts 8 (crc8 ^^^ b)) init
      = d.foldl (fun c b =>
          reference_shift (reference_shift (reference_shift (reference_shift
            (reference_shift (reference_shift (reference_shift
              (reference_shift (c ^^^ b))))))))) init := by
  induction d generalizing init with
  | nil => rfl
  | cons b rest ih =>
    have hx : init ^^^ b < 256 :=
      Nat.xor_lt_two_pow (n := 8) hi (hb b (List.mem_cons_self b rest))
    rw [List.foldl_cons, List.foldl_cons, ← crc8_shifts_eight _ hx]
    exact ih (fun x hx2 => hb x (List.mem_cons_of_mem b hx2)) _ (crc8_shifts_byte 8 _ hx)

theorem and_ff_of_lt (c : Nat) (h : c < 256) : c &&& 0xff = c := by
  have h1 : c &&& 0xff = c % 256 := Nat.and_pow_two_sub_one_eq_mod c 8
  rw [h1, Nat.mod_eq_of_lt h]

theorem fm_crc8_eq_fold (d : List Nat) (hb : ∀ b ∈ d, b < 256) :
    fm_crc8 d d.length = d.foldl (fun crc8 b => crc8_shifts 8 (crc8 ^^^ b)) 0xff := by
  unfold fm_crc8
  rw [foldl_range_getD (fun crc8 b => crc8_shifts 8 (crc8 ^^^ b)) d 0xff]
  exact and_ff_of_lt _ (crc8_fold_byte d hb 0xff (by decide))

/-- Claim C18: for a byte sequence `d` of at most 254 bytes, `fm_crc8` returns
a value below 256 equal to the bitwise reference (initial value `0xFF`, each
byte XORed in and followed by eight right-shift steps that XOR `0xB8` in when
the low bit is 1, no final XOR); on the empty sequence it returns `0xFF`; and
on `d` followed by its own checksum, a length that still fits the `uint8_t`
parameter, it returns 0. -/
theorem fm_crc8_self_check (d : List Nat) (hlen : d.length ≤ 254) (hb : ∀ b ∈ d, b < 256) :
    fm_crc8 d d.length < 256
    ∧ fm_crc8 d d.length = crc8_reference d
    ∧ fm_crc8 [] 0 = 0xFF
    ∧ (d ++ [fm_crc8 d d.length]).length < 256
    ∧ fm_crc8 (d ++ [fm_crc8 d d.length]) (d ++ [fm_crc8 d d.length]).length = 0 := by
  have hlt : fm_crc8 d d.length < 256 := by
    rw [fm_crc8_eq_fold d hb]
    exact crc8_fold_byte d hb 0xff (by decide)
  refine ⟨hlt, ?_, by decide, ?_, ?_⟩
  · rw [fm_crc8_eq_fold d hb]
    exact crc8_fold_reference d hb 0xff (by decide)
  · rw [List.length_append, List.length_singleton]
    omega
  · have hb2 : ∀ b ∈ d ++ [fm_crc8 d d.length], b < 256 := by
      intro b hmem
      rcases List.mem_append.1 hmem with h | h
      · exact hb b h
      · rw [List.mem_singleton] at h
        rw [h]
        exact hlt
    rw [fm_crc8_eq_fold _ hb2, List.foldl_append]
    simp only [List.foldl_cons, List.foldl_nil]
    rw [← fm_crc8_eq_fold d hb, Nat.xor_self]
    exact crc8_shifts_zero

/-- Evaluation of C18 on the 13-byte buffer of `fm11_init` (fm.c:142-145)
with the serial number `01 02 .. 09` followed by `44 00 04 20`: the checksum
is `0x1A` and the buffer followed by it has checksum 0. -/
theorem fm_crc8_self_check_witness :
    fm_crc8 [1, 2, 3, 4, 5, 6, 7, 8, 9, 0x44, 0x00, 0x04, 0x20] 13 = 0x1A
    ∧ fm_crc8 ([1, 2, 3, 4, 5, 6, 7, 8, 9, 0x44, 0x00, 0x04, 0x20]
        ++ [fm_crc8 [1, 2, 3, 4, 5, 6, 7, 8, 9, 0x44, 0x00, 0x04, 0x20] 13]) 14 = 0 :=
  ⟨by decide,
   (fm_crc8_self_check [1, 2, 3, 4, 5, 6, 7, 8, 9, 0x44, 0x00, 0x04, 0x20] (by decide)
      (by decide)).2.2.2.2⟩

end Fm
